import Mathlib

set_option linter.unusedVariables false

/-!
Verification development for the combat-simulation core of a room-based
action roguelike (collision and damage resolution, boss AI state machine,
boss attack-pattern generation, homing projectiles, bomb blast damage).

The definitions below are a shallow embedding of the Python sources:
  - src/components/core.py, combat.py, game.py, boss.py  (component data)
  - src/systems/collision.py   (CollisionSystem)
  - src/systems/bomb.py        (BombSystem.damage_entities_in_radius)
  - src/systems/boss_ai.py     (BossAISystem)
  - src/systems/boss_patterns.py
  - src/systems/homing.py      (HomingSystem)
  - src/entities/bosses.py, items.py, currency.py
  - src/config.py              (Config constants)

Python floats are modelled as real numbers, entity ids as integers, the
esper entity store as an association list together with a deferred-deletion
list (esper's delete_entity defers removal: components stay readable, while
entity_exists reports false).  Python exceptions are modelled with Except;
the error value carries the state at the moment of the raise.  Randomness
(random.random / random.choice / random.randint) is modelled by two streams
of draws carried in the simulation state.
-/

namespace TOI

/-- Position component, src/components/core.py. -/
structure Pos where
  x : ℝ
  y : ℝ

/-- Velocity component, src/components/core.py. -/
structure Vel where
  dx : ℝ
  dy : ℝ

/-- Health component, src/components/core.py (current may go below 0 after damage). -/
structure HealthC where
  current : ℝ
  max : ℝ

/-- Collider component, src/components/combat.py. -/
structure ColliderC where
  radius : ℝ

/-- Projectile component, src/components/combat.py: damage and the owner entity id.
The owner is a weak reference; -1 is used by boss-spawned projectiles. -/
structure ProjectileC where
  damage : ℝ
  owner : ℤ

/-- Item component, src/components/game.py. -/
structure ItemC where
  name : String
  stat_modifiers : List (String × ℝ)
  special_effects : List String

/-- CollectedItems.has_effect, src/components/game.py lines 85-94:
any(effect_name in item.special_effects for item in self.items). -/
def has_effect (items : List ItemC) (effect_name : String) : Bool :=
  items.any (fun it => it.special_effects.contains effect_name)

/-- Sprite component, src/components/core.py. -/
structure SpriteC where
  char : String
  color : String

/-- Boss component, src/components/boss.py. -/
structure BossC where
  boss_type : String
  current_phase : ℤ := 1
  phase_2_threshold : ℝ := 0.5
  has_transitioned : Bool := false

/-- BossAI component, src/components/boss.py. -/
structure BossAIC where
  pattern_name : String
  pattern_timer : ℝ := 0
  pattern_cooldown : ℝ := 2
  teleport_timer : ℝ := 0
  teleport_cooldown : ℝ := 6

/-- An entity: each field is one optional component (esper attaches components
independently).  Player, Enemy and Dead are marker components; Enemy carries
its type string, Coin its value, Invincible its remaining time. -/
structure Entity where
  pos : Option Pos := none
  vel : Option Vel := none
  health : Option HealthC := none
  collider : Option ColliderC := none
  projectile : Option ProjectileC := none
  sprite : Option SpriteC := none
  player : Bool := false
  enemy : Option String := none
  invincible : Option ℝ := none
  dead_marker : Bool := false
  collected : Option (List ItemC) := none
  boss : Option BossC := none
  bossAI : Option BossAIC := none
  item : Option ItemC := none
  coin : Option ℤ := none

/-- The esper world: the component store (association list keyed by entity id,
in creation order), the deferred-deletion list, and the next fresh id.
delete_entity defers: the entry stays in the store (components remain
readable) but entity_exists reports false. -/
structure World where
  store : List (ℤ × Entity)
  dead : List ℤ
  nextId : ℤ

/-- Look up an entity's components (esper keeps them readable until the
dead entities are purged at the start of the next frame). -/
def World.get (w : World) (id : ℤ) : Option Entity :=
  w.store.lookup id

/-- esper.entity_exists: the id is in the store and not pending deletion. -/
def World.entity_exists (w : World) (id : ℤ) : Bool :=
  (w.store.lookup id).isSome && !(decide (id ∈ w.dead))

/-- Replace the components of an existing entity (in-place mutation). -/
def World.set (w : World) (id : ℤ) (e : Entity) : World :=
  { w with store := w.store.map (fun p => if p.1 = id then (id, e) else p) }

/-- esper.delete_entity (deferred): record the id in the dead set
(a Python set: adding an already-present id is a no-op). -/
def World.delete (w : World) (id : ℤ) : World :=
  { w with dead := if id ∈ w.dead then w.dead else w.dead ++ [id] }

/-- esper.create_entity followed by add_component calls: append a fresh entry. -/
def World.create (w : World) (e : Entity) : ℤ × World :=
  (w.nextId, { w with store := w.store ++ [(w.nextId, e)], nextId := w.nextId + 1 })

namespace Config

/-- src/config.py: INVINCIBILITY_DURATION. -/
def INVINCIBILITY_DURATION : ℝ := 0.5

/-- src/config.py: ITEM_DROP_CHANCE (15% chance for enemy to drop item). -/
def ITEM_DROP_CHANCE : ℝ := 0.15

/-- src/config.py: ENEMY_COIN_DROP_CHANCE. -/
def ENEMY_COIN_DROP_CHANCE : ℝ := 0.15

/-- src/config.py: BOMB_BLAST_RADIUS. -/
def BOMB_BLAST_RADIUS : ℝ := 2

/-- src/config.py: BOMB_DAMAGE. -/
def BOMB_DAMAGE : ℝ := 1

/-- src/config.py: HOMING_TURN_RATE in degrees per second. -/
def HOMING_TURN_RATE : ℝ := 120

/-- src/config.py: PROJECTILE_HITBOX. -/
def PROJECTILE_HITBOX : ℝ := 0.2

/-- src/config.py: ENEMY_HITBOX. -/
def ENEMY_HITBOX : ℝ := 0.5

/-- Modelled from the spec: Config.EXPLOSIVE_TEAR_DAMAGE_MULTIPLIER is
referenced by src/systems/collision.py line 148 and asserted by
tests/test_config.py, but its definition is missing from src/config.py.
The comment at collision.py line 147 and the spec describe the explosion
damage as 50% of bomb damage. -/
def EXPLOSIVE_TEAR_DAMAGE_MULTIPLIER : ℝ := 0.5

/-- Modelled from the spec: Config.BOSS_PHASE_TRANSITION_INVULN is referenced
by src/systems/boss_ai.py line 79 and by tests/test_boss_ai_system.py, but its
definition is missing from src/config.py.  The spec calls it a short
phase-transition grace period; any positive duration fits. -/
def BOSS_PHASE_TRANSITION_INVULN : ℝ := 1

/-- Modelled from the spec: Config.BOSS_TELEPORT_POSITIONS (the boss's
configured waypoint set) is referenced by src/systems/boss_ai.py line 172 but
missing from src/config.py.  Modelled as a fixed nonempty waypoint list inside
the 60x20 room of the spec. -/
def BOSS_TELEPORT_POSITIONS : List (ℝ × ℝ) :=
  [(10, 5), (50, 5), (10, 15), (50, 15), (30, 10)]

/-- Modelled from the spec: Config.BOSS_TELEPORT_MIN_PLAYER_DISTANCE (the
minimum safe distance of a teleport waypoint from the player) is referenced by
src/systems/boss_ai.py line 182 but missing from src/config.py. -/
def BOSS_TELEPORT_MIN_PLAYER_DISTANCE : ℝ := 5

end Config

/-- Python exceptions that the embedded code can raise. -/
inductive PyErr where
  | keyErr
  | typeErr
  | zeroDivErr
  | valueErr
deriving DecidableEq

/-- Simulation state: the world plus the two streams of random draws
(random.random in [0,1) and the natural-number entropy behind
random.choice / random.randint) with their consumption counters. -/
structure Sim where
  w : World
  rngF : ℕ → ℝ
  rngN : ℕ → ℕ
  fIdx : ℕ := 0
  nIdx : ℕ := 0

/-- random.random(): consume one float draw. -/
def random_random (s : Sim) : ℝ × Sim :=
  (s.rngF s.fIdx, { s with fIdx := s.fIdx + 1 })

/-- Consume one natural-number draw (entropy behind random.choice/randint). -/
def random_nat (s : Sim) : ℕ × Sim :=
  (s.rngN s.nIdx, { s with nIdx := s.nIdx + 1 })

/-- Result of a fallible (exception-throwing) step: the error carries the
state at the moment of the raise, as Python mutations performed before an
exception stay applied. -/
abbrev PRes (α : Type) := Except (PyErr × Sim) α

/-- esper.component_for_entity: raises KeyError when the entity or the
component is absent. -/
def get_comp {α : Type} (s : Sim) (id : ℤ) (f : Entity → Option α) : PRes α :=
  match s.w.get id with
  | none => .error (.keyErr, s)
  | some e =>
    match f e with
    | none => .error (.keyErr, s)
    | some c => .ok c

/-- esper.has_component (never raises; deferred-deleted entities still count). -/
def has_comp {α : Type} (w : World) (id : ℤ) (f : Entity → Option α) : Bool :=
  match w.get id with
  | none => false
  | some e => (f e).isSome

/-- Python math.radians: degrees to radians, x * (pi / 180). -/
noncomputable def radians (x : ℝ) : ℝ := x * (Real.pi / 180)

/-- Python float modulo a % b for b > 0: a - b * floor (a / b). -/
noncomputable def pyMod (a b : ℝ) : ℝ := a - b * ⌊a / b⌋

/-- One projectile vector produced by a boss pattern generator
(src/systems/boss_patterns.py dict with keys x, y, vx, vy). -/
structure ProjData where
  x : ℝ
  y : ℝ
  vx : ℝ
  vy : ℝ

/-- generate_spiral_pattern, src/systems/boss_patterns.py lines 6-36.
Counts are naturals; Python's 360.0 / count raises on count = 0, a case no
caller exercises (real division by zero yields 0 here). -/
noncomputable def generate_spiral_pattern (x y rotation : ℝ) (count : ℕ) (speed : ℝ) :
    List ProjData :=
  let angle_step : ℝ := 360 / (count : ℝ)
  (List.range count).map (fun (i : ℕ) =>
    let angle_deg := pyMod ((i : ℝ) * angle_step + rotation) 360
    let angle_rad := radians angle_deg
    ⟨x, y, Real.cos angle_rad * speed, Real.sin angle_rad * speed⟩)

/-- generate_wave_pattern, src/systems/boss_patterns.py lines 39-72. -/
noncomputable def generate_wave_pattern (x y sweep_angle : ℝ) (count : ℕ)
    (arc_width speed : ℝ) : List ProjData :=
  let start_angle : ℝ := sweep_angle - arc_width / 2
  let angle_step : ℝ := if 1 < count then arc_width / ((count : ℝ) - 1) else 0
  (List.range count).map (fun (i : ℕ) =>
    let angle_deg := start_angle + (i : ℝ) * angle_step
    let angle_rad := radians angle_deg
    ⟨x, y, Real.cos angle_rad * speed, Real.sin angle_rad * speed⟩)

/-- generate_pulse_pattern, src/systems/boss_patterns.py lines 75-104. -/
noncomputable def generate_pulse_pattern (x y : ℝ) (count : ℕ) (speed : ℝ) :
    List ProjData :=
  let angle_step : ℝ := 360 / (count : ℝ)
  (List.range count).map (fun (i : ℕ) =>
    let angle_deg := (i : ℝ) * angle_step
    let angle_rad := radians angle_deg
    ⟨x, y, Real.cos angle_rad * speed, Real.sin angle_rad * speed⟩)

/-- get_pattern_for_boss, src/systems/boss_patterns.py lines 107-129: the
lookup keys only on the pattern name; boss type and phase are ignored by the
source dict.  Default arguments of the generators are filled in as in the
source signatures. -/
noncomputable def get_pattern_for_boss (boss_type : String) (phase : ℤ)
    (pattern_name : String) : Option (ℝ → ℝ → List ProjData) :=
  if pattern_name = "spiral" then
    some (fun x y => generate_spiral_pattern x y 0 8 4)
  else if pattern_name = "wave" then
    some (fun x y => generate_wave_pattern x y 0 5 60 5)
  else if pattern_name = "pulse" then
    some (fun x y => generate_pulse_pattern x y 12 3.5)
  else if pattern_name = "double_spiral" then
    some (fun x y => generate_spiral_pattern x y 0 16 4)
  else if pattern_name = "fast_wave" then
    some (fun x y => generate_wave_pattern x y 0 7 90 6)
  else if pattern_name = "burst_pulse" then
    some (fun x y => generate_pulse_pattern x y 16 4)
  else none

/-- Update an entity's components in place (esper component mutation). -/
def World.modifyEnt (w : World) (id : ℤ) (f : Entity → Entity) : World :=
  { w with store := w.store.map (fun p => if p.1 = id then (p.1, f p.2) else p) }

/-- Sim-level component mutation. -/
def Sim.modify (s : Sim) (id : ℤ) (f : Entity → Entity) : Sim :=
  { s with w := s.w.modifyEnt id f }

/-- Sim-level deferred deletion. -/
def Sim.del (s : Sim) (id : ℤ) : Sim :=
  { s with w := s.w.delete id }

/-- esper.has_component as a boolean field test (total: callers in the source
only reach it for entities they know exist). -/
def hasc (w : World) (id : ℤ) (f : Entity → Bool) : Bool :=
  match w.get id with
  | some e => f e
  | none => false

/-- Euclidean distance used by the collision overlap test
(src/systems/collision.py lines 76-78, written with dx * dx + dy * dy). -/
noncomputable def distance (pos1 pos2 : Pos) : ℝ :=
  Real.sqrt ((pos2.x - pos1.x) * (pos2.x - pos1.x) + (pos2.y - pos1.y) * (pos2.y - pos1.y))

/-- Circle overlap predicate, src/systems/collision.py line 80:
distance < (col1.radius + col2.radius), strict. -/
noncomputable def collides (pos1 pos2 : Pos) (r1 r2 : ℝ) : Bool :=
  decide (distance pos1 pos2 < r1 + r2)

/-- CollisionSystem._check_collision, src/systems/collision.py lines 59-80. -/
noncomputable def check_collision (e1 e2 : ℤ) (s : Sim) : PRes Bool :=
  match get_comp s e1 (·.pos) with
  | .error err => .error err
  | .ok pos1 =>
  match get_comp s e2 (·.pos) with
  | .error err => .error err
  | .ok pos2 =>
  match get_comp s e1 (·.collider) with
  | .error err => .error err
  | .ok col1 =>
  match get_comp s e2 (·.collider) with
  | .error err => .error err
  | .ok col2 => .ok (collides pos1 pos2 col1.radius col2.radius)

/-- The per-entity body of BombSystem.damage_entities_in_radius,
src/systems/bomb.py lines 92-106: skip entities already at non-positive
health and invincible players; inclusive distance test; always subtract
Config.BOMB_DAMAGE (the method has no damage-amount parameter). -/
noncomputable def blast_update (center : Pos) (radius : ℝ) (e : Entity) : Entity :=
  match e.pos, e.health with
  | some pos, some h =>
    if h.current ≤ 0 then e
    else if e.player && e.invincible.isSome then e
    else if Real.sqrt ((center.x - pos.x) ^ 2 + (center.y - pos.y) ^ 2) ≤ radius then
      { e with health := some { h with current := h.current - Config.BOMB_DAMAGE } }
    else e
  | _, _ => e

/-- BombSystem.damage_entities_in_radius, src/systems/bomb.py lines 85-106:
the (Position, Health) loop; each step touches only the entity's own health,
so the sequential in-place loop is a pointwise map. -/
noncomputable def damage_entities_in_radius (w : World) (center : Pos) (radius : ℝ) :
    World :=
  { w with store := w.store.map (fun p => (p.1, blast_update center radius p.2)) }

/-- The owner-effect probe used twice in CollisionSystem._projectile_hit_enemy
(src/systems/collision.py lines 136-140 and 158-162): the owner must exist,
carry Player and CollectedItems, and one of its items must grant the effect. -/
def owner_player_effect (w : World) (owner : ℤ) (effect : String) : Bool :=
  if w.entity_exists owner && hasc w owner (·.player) then
    match w.get owner with
    | some oe =>
      match oe.collected with
      | some items => has_effect items effect
      | none => false
    | none => false
  else false

/-- Item pool: the keys of ITEM_DEFINITIONS (src/data/items.py) in insertion
order, as listed by random.choice(list(ITEM_DEFINITIONS.keys())). -/
def ITEM_POOL : List String :=
  ["magic_mushroom", "triple_shot", "piercing_tears", "homing_shots",
   "speed_boost", "damage_up", "mini_mushroom", "fire_rate_up"]

/-- One record of ITEM_DEFINITIONS, src/data/items.py. -/
structure ItemDef where
  sprite : String
  color : String
  stat_modifiers : List (String × ℝ)
  special_effects : List String

/-- ITEM_DEFINITIONS, src/data/items.py. -/
def ITEM_DEFINITIONS (item_name : String) : Option ItemDef :=
  if item_name = "magic_mushroom" then
    some ⟨"M", "red", [("damage", 1), ("speed", 1.2)], []⟩
  else if item_name = "triple_shot" then
    some ⟨"3", "yellow", [("fire_rate", 0.1)], ["multi_shot"]⟩
  else if item_name = "piercing_tears" then
    some ⟨"P", "cyan", [("damage", 0.5)], ["piercing"]⟩
  else if item_name = "homing_shots" then
    some ⟨"H", "magenta", [], ["homing"]⟩
  else if item_name = "speed_boost" then
    some ⟨"S", "green", [("speed", 1.3)], []⟩
  else if item_name = "damage_up" then
    some ⟨"D", "red", [("damage", 1.5)], []⟩
  else if item_name = "mini_mushroom" then
    some ⟨"m", "red", [("damage", 0.3)], []⟩
  else if item_name = "fire_rate_up" then
    some ⟨"F", "yellow", [("fire_rate", 0.5)], []⟩
  else none

/-- create_item, src/entities/items.py lines 10-42 (ValueError on an unknown
item name). -/
def create_item (item_name : String) (x y : ℝ) (s : Sim) : PRes Sim :=
  match ITEM_DEFINITIONS item_name with
  | none => .error (.valueErr, s)
  | some d =>
    let (_, w') := s.w.create
      { pos := some ⟨x, y⟩, sprite := some ⟨d.sprite, d.color⟩,
        collider := some ⟨0.4⟩,
        item := some ⟨item_name, d.stat_modifiers, d.special_effects⟩ }
    .ok { s with w := w' }

/-- spawn_random_item, src/entities/items.py lines 45-57: random.choice over
the item pool, then create_item. -/
def spawn_random_item (x y : ℝ) (s : Sim) : PRes Sim :=
  let (k, s1) := random_nat s
  create_item (ITEM_POOL.getD (k % ITEM_POOL.length) "") x y s1

/-- spawn_coin, src/entities/currency.py lines 7-24 (default value 1). -/
def spawn_coin (x y : ℝ) (w : World) : World :=
  (w.create { pos := some ⟨x, y⟩, sprite := some ⟨"$", "yellow"⟩, coin := some 1 }).2

/-- CollisionSystem._projectile_hit_enemy, src/systems/collision.py
lines 118-185.  bombPresent models `self.bomb_system is not None`.

In the explosive branch the source (line 151) invokes
`self.bomb_system.damage_entities_in_radius(proj_pos, Config.BOMB_BLAST_RADIUS,
explosion_damage)` with three positional arguments, but the method defined at
src/systems/bomb.py line 85 takes only `(center, radius)`; in Python the call
raises TypeError, so no blast damage is applied and the projectile is not
deleted there.  (With the unmodified src/config.py the preceding line 148
would already raise AttributeError, since Config.EXPLOSIVE_TEAR_DAMAGE_MULTIPLIER
is absent; that constant is spec-modelled above, which leaves the arity
mismatch as the first failure.) -/
noncomputable def projectile_hit_enemy (bombPresent : Bool) (projectile enemy : ℤ)
    (s : Sim) : PRes Sim :=
  match get_comp s projectile (·.projectile) with
  | .error err => .error err
  | .ok proj =>
  match get_comp s enemy (·.health) with
  | .error err => .error err
  | .ok health =>
    let newCur := health.current - proj.damage
    let s1 := s.modify enemy (fun e => { e with health := some { health with current := newCur } })
    let has_explosive := owner_player_effect s1.w proj.owner "explosive"
    if has_explosive && bombPresent then
      match get_comp s1 projectile (·.pos) with
      | .error err => .error err
      | .ok _proj_pos => .error (.typeErr, s1)
    else
      let has_piercing := owner_player_effect s1.w proj.owner "piercing"
      let s2 := if !has_piercing then s1.del projectile else s1
      if newCur ≤ 0 then
        match get_comp s2 enemy (·.pos) with
        | .error err => .error err
        | .ok pos =>
          let (r1, s3) := random_random s2
          match (if r1 < Config.ITEM_DROP_CHANCE then spawn_random_item pos.x pos.y s3
                 else .ok s3) with
          | .error err => .error err
          | .ok s4 =>
            let (r2, s5) := random_random s4
            let s7 :=
              if r2 < Config.ENEMY_COIN_DROP_CHANCE then
                let (k, s6) := random_nat s5
                let num_coins := 1 + k % 2
                { s6 with w := (List.range num_coins).foldl (fun w _ => spawn_coin pos.x pos.y w) s6.w }
              else s5
            .ok (s7.del enemy)
      else
        .ok s2

/-- CollisionSystem._projectile_hit_player, src/systems/collision.py
lines 187-212. -/
noncomputable def projectile_hit_player (projectile player : ℤ) (s : Sim) : PRes Sim :=
  if hasc s.w player (·.invincible.isSome) then
    .ok (s.del projectile)
  else
    match get_comp s projectile (·.projectile) with
    | .error err => .error err
    | .ok proj =>
    match get_comp s player (·.health) with
    | .error err => .error err
    | .ok health =>
      let newCur := health.current - proj.damage
      let s1 := s.modify player (fun e => { e with health := some { health with current := newCur } })
      let s2 := s1.modify player (fun e => { e with invincible := some Config.INVINCIBILITY_DURATION })
      let s3 := s2.del projectile
      if newCur ≤ 0 then
        .ok (s3.modify player (fun e => { e with dead_marker := true }))
      else
        .ok s3

/-- CollisionSystem._enemy_contact_player, src/systems/collision.py
lines 214-231 (fixed contact damage of 1.0). -/
noncomputable def enemy_contact_player (enemy player : ℤ) (s : Sim) : PRes Sim :=
  if hasc s.w player (·.invincible.isSome) then
    .ok s
  else
    match get_comp s player (·.health) with
    | .error err => .error err
    | .ok health =>
      let newCur := health.current - 1
      let s1 := s.modify player (fun e => { e with health := some { health with current := newCur } })
      let s2 := s1.modify player (fun e => { e with invincible := some Config.INVINCIBILITY_DURATION })
      if newCur ≤ 0 then
        .ok (s2.modify player (fun e => { e with dead_marker := true }))
      else
        .ok s2

/-- First rule block of CollisionSystem._handle_collision,
src/systems/collision.py lines 88-98 (projectile hitting enemy, with its
symmetric elif branch). -/
noncomputable def hc_proj_enemy (bombPresent : Bool) (e1 e2 : ℤ) (s : Sim) : PRes Sim :=
  if hasc s.w e1 (·.projectile.isSome) && hasc s.w e2 (·.enemy.isSome) then
    match get_comp s e1 (·.projectile) with
    | .error err => .error err
    | .ok proj =>
      if !(s.w.entity_exists proj.owner) || hasc s.w proj.owner (·.player) then
        projectile_hit_enemy bombPresent e1 e2 s
      else .ok s
  else if hasc s.w e2 (·.projectile.isSome) && hasc s.w e1 (·.enemy.isSome) then
    match get_comp s e2 (·.projectile) with
    | .error err => .error err
    | .ok proj =>
      if !(s.w.entity_exists proj.owner) || hasc s.w proj.owner (·.player) then
        projectile_hit_enemy bombPresent e2 e1 s
      else .ok s
  else .ok s

/-- Second rule block of CollisionSystem._handle_collision,
src/systems/collision.py lines 100-110 (enemy projectile hitting player). -/
noncomputable def hc_proj_player (e1 e2 : ℤ) (s : Sim) : PRes Sim :=
  if hasc s.w e1 (·.projectile.isSome) && hasc s.w e2 (·.player) then
    match get_comp s e1 (·.projectile) with
    | .error err => .error err
    | .ok proj =>
      if s.w.entity_exists proj.owner && hasc s.w proj.owner (·.enemy.isSome) then
        projectile_hit_player e1 e2 s
      else .ok s
  else if hasc s.w e2 (·.projectile.isSome) && hasc s.w e1 (·.player) then
    match get_comp s e2 (·.projectile) with
    | .error err => .error err
    | .ok proj =>
      if s.w.entity_exists proj.owner && hasc s.w proj.owner (·.enemy.isSome) then
        projectile_hit_player e2 e1 s
      else .ok s
  else .ok s

/-- Third rule block of CollisionSystem._handle_collision,
src/systems/collision.py lines 112-116 (enemy touching player). -/
noncomputable def hc_contact (e1 e2 : ℤ) (s : Sim) : PRes Sim :=
  if hasc s.w e1 (·.enemy.isSome) && hasc s.w e2 (·.player) then
    enemy_contact_player e1 e2 s
  else if hasc s.w e2 (·.enemy.isSome) && hasc s.w e1 (·.player) then
    enemy_contact_player e2 e1 s
  else .ok s

/-- CollisionSystem._handle_collision, src/systems/collision.py lines 82-116:
the three sequential rule blocks; later blocks observe the mutations of
earlier ones, exactly as in the source. -/
noncomputable def handle_collision (bombPresent : Bool) (e1 e2 : ℤ) (s : Sim) :
    PRes Sim :=
  match hc_proj_enemy bombPresent e1 e2 s with
  | .error err => .error err
  | .ok s1 =>
  match hc_proj_player e1 e2 s1 with
  | .error err => .error err
  | .ok s2 => hc_contact e1 e2 s2

/-- Ordered pairs produced by the nested loop
`for i, a in enumerate(l): for b in l[i+1:]`. -/
def allPairs {α : Type} : List α → List (α × α)
  | [] => []
  | x :: xs => (xs.map (fun y => (x, y))) ++ allPairs xs

/-- The pair loop of CollisionSystem.process, src/systems/collision.py
lines 33-37: per pair, overlap test, then interaction handling; an exception
aborts the whole pass. -/
noncomputable def process_pairs (bombPresent : Bool) :
    List (ℤ × ℤ) → Sim → PRes Sim
  | [], s => .ok s
  | pr :: rest, s =>
    match check_collision pr.1 pr.2 s with
    | .error err => .error err
    | .ok c =>
      match (if c then handle_collision bombPresent pr.1 pr.2 s else .ok s) with
      | .error err => .error err
      | .ok s' => process_pairs bombPresent rest s'

/-- CollisionSystem.process, src/systems/collision.py lines 24-37: snapshot
the (Position, Collider) entities, test every unordered pair once, handle the
colliding ones.  The player-door block (lines 39-57) is skipped because this
core is driven with room_manager = None. -/
noncomputable def collision_process (bombPresent : Bool) (s : Sim) : PRes Sim :=
  process_pairs bombPresent
    (allPairs ((s.w.store.filter (fun p => p.2.pos.isSome && p.2.collider.isSome)).map Prod.fst))
    s

/-- math.atan2 on the reals (quadrant-corrected arctangent; the signed-zero
and NaN subtleties of IEEE floats do not arise in the real model). -/
noncomputable def atan2 (y x : ℝ) : ℝ :=
  if 0 < x then Real.arctan (y / x)
  else if x < 0 then
    (if 0 ≤ y then Real.arctan (y / x) + Real.pi else Real.arctan (y / x) - Real.pi)
  else
    (if 0 < y then Real.pi / 2 else if y < 0 then -(Real.pi / 2) else 0)

/-- The first normalisation loop of HomingSystem.process (src/systems/homing.py
lines 68-69): `while angle_diff > math.pi: angle_diff -= 2 * math.pi`. -/
noncomputable def subLoop (d : ℝ) : ℝ :=
  if h : Real.pi < d then subLoop (d - 2 * Real.pi) else d
termination_by Nat.ceil ((d - Real.pi) / (2 * Real.pi))
decreasing_by
  have hp : (0:ℝ) < 2 * Real.pi := by positivity
  have hx : (0:ℝ) < (d - Real.pi) / (2 * Real.pi) := div_pos (by linarith) hp
  have hrw : (d - 2 * Real.pi - Real.pi) / (2 * Real.pi)
      = (d - Real.pi) / (2 * Real.pi) - 1 := by
    field_simp
    ring
  have h1 : 1 ≤ ⌈(d - Real.pi) / (2 * Real.pi)⌉₊ := Nat.ceil_pos.mpr hx
  have h2 : ⌈(d - Real.pi) / (2 * Real.pi) - 1⌉₊ ≤ ⌈(d - Real.pi) / (2 * Real.pi)⌉₊ - 1 := by
    rw [Nat.ceil_le]
    push_cast [Nat.cast_sub h1]
    have := Nat.le_ceil ((d - Real.pi) / (2 * Real.pi))
    linarith
  rw [hrw]
  omega

/-- The second normalisation loop of HomingSystem.process
(src/systems/homing.py lines 70-71):
`while angle_diff < -math.pi: angle_diff += 2 * math.pi`. -/
noncomputable def addLoop (d : ℝ) : ℝ :=
  if h : d < -Real.pi then addLoop (d + 2 * Real.pi) else d
termination_by Nat.ceil ((-Real.pi - d) / (2 * Real.pi))
decreasing_by
  have hp : (0:ℝ) < 2 * Real.pi := by positivity
  have hx : (0:ℝ) < (-Real.pi - d) / (2 * Real.pi) := div_pos (by linarith) hp
  have hrw : (-Real.pi - (d + 2 * Real.pi)) / (2 * Real.pi)
      = (-Real.pi - d) / (2 * Real.pi) - 1 := by
    field_simp
    ring
  have h1 : 1 ≤ ⌈(-Real.pi - d) / (2 * Real.pi)⌉₊ := Nat.ceil_pos.mpr hx
  have h2 : ⌈(-Real.pi - d) / (2 * Real.pi) - 1⌉₊ ≤ ⌈(-Real.pi - d) / (2 * Real.pi)⌉₊ - 1 := by
    rw [Nat.ceil_le]
    push_cast [Nat.cast_sub h1]
    have := Nat.le_ceil ((-Real.pi - d) / (2 * Real.pi))
    linarith
  rw [hrw]
  omega

/-- The entities iterated by `esper.get_components(Enemy, Position)`
(src/systems/homing.py line 42), in store order. -/
def enemy_pos_entries (w : World) : List (ℤ × Pos) :=
  w.store.filterMap (fun p =>
    match p.2.enemy, p.2.pos with
    | some _, some pos => some (p.1, pos)
    | _, _ => none)

/-- The nearest-enemy scan of HomingSystem.process (src/systems/homing.py
lines 39-49): nearest_distance starts at infinity and is beaten by strict <,
so the first enemy always replaces the initial None and ties keep the earlier
entry. -/
noncomputable def nearest_step (proj_pos : Pos) (acc : Option (Pos × ℝ))
    (ep : ℤ × Pos) : Option (Pos × ℝ) :=
  let dx := ep.2.x - proj_pos.x
  let dy := ep.2.y - proj_pos.y
  let d := Real.sqrt (dx * dx + dy * dy)
  match acc with
  | none => some (ep.2, d)
  | some (bp, bd) => if d < bd then some (ep.2, d) else some (bp, bd)

noncomputable def nearest_enemy (proj_pos : Pos) (entries : List (ℤ × Pos)) :
    Option Pos :=
  (entries.foldl (nearest_step proj_pos) none).map Prod.fst

/-- The per-projectile velocity update of HomingSystem.process
(src/systems/homing.py lines 38-79). -/
noncomputable def homing_update_vel (dt : ℝ) (proj_pos : Pos) (vel : Vel)
    (entries : List (ℤ × Pos)) : Vel :=
  match nearest_enemy proj_pos entries with
  | none => vel
  | some target =>
    let target_angle := atan2 (target.y - proj_pos.y) (target.x - proj_pos.x)
    let current_angle := atan2 vel.dy vel.dx
    let current_speed := Real.sqrt (vel.dx * vel.dx + vel.dy * vel.dy)
    let max_turn := radians Config.HOMING_TURN_RATE * dt
    let angle_diff := addLoop (subLoop (target_angle - current_angle))
    let turn_amount := max (-max_turn) (min max_turn angle_diff)
    let new_angle := current_angle + turn_amount
    ⟨Real.cos new_angle * current_speed, Real.sin new_angle * current_speed⟩

/-- The player-has-homing scan of HomingSystem.process (src/systems/homing.py
lines 21-25). -/
def player_has_homing (w : World) : Bool :=
  w.store.any (fun p =>
    p.2.player &&
      (match p.2.collected with
       | some items => has_effect items "homing"
       | none => false))

/-- HomingSystem.process, src/systems/homing.py lines 16-79: if no player has
the homing effect the frame is a no-op; otherwise every (Projectile, Position,
Velocity) entity whose owner exists and is the player gets its velocity
rotated toward the nearest enemy.  Each update touches only the projectile's
own velocity, so the sequential in-place loop is a pointwise map. -/
noncomputable def homing_process (dt : ℝ) (w : World) : World :=
  if !player_has_homing w then w
  else
    { w with store := w.store.map (fun p =>
        match p.2.projectile, p.2.pos, p.2.vel with
        | some proj, some ppos, some pvel =>
          if w.entity_exists proj.owner && hasc w proj.owner (·.player) then
            (p.1, { p.2 with vel := some (homing_update_vel dt ppos pvel (enemy_pos_entries w)) })
          else p
        | _, _, _ => p) }

/-- One record of BOSS_DATA, src/entities/bosses.py lines 9-34. -/
structure BossData where
  name : String
  hp : ℝ
  sprite : SpriteC
  patterns : List String
  phase_2_patterns : List String
  teleport_cooldown_phase_1 : ℝ
  teleport_cooldown_phase_2 : ℝ

/-- BOSS_DATA, src/entities/bosses.py lines 9-34. -/
def BOSS_DATA (boss_type : String) : Option BossData :=
  if boss_type = "boss_a" then
    some ⟨"The Orbiter", 50, ⟨"O", "cyan"⟩, ["spiral", "wave"],
          ["double_spiral", "fast_wave"], 7, 4⟩
  else if boss_type = "boss_b" then
    some ⟨"The Crossfire", 75, ⟨"X", "yellow"⟩, ["wave", "pulse"],
          ["fast_wave", "burst_pulse"], 6, 3⟩
  else if boss_type = "boss_c" then
    some ⟨"The Spiral King", 100, ⟨"K", "bright_red"⟩, ["pulse", "spiral"],
          ["burst_pulse", "double_spiral"], 6, 3⟩
  else none

/-- create_boss, src/entities/bosses.py lines 37-73: the components attached
to a freshly created boss entity (ValueError on an unknown type is the none
case).  No Enemy and no Player marker is attached. -/
def create_boss (boss_type : String) (x y : ℝ) : Option Entity :=
  match BOSS_DATA boss_type with
  | none => none
  | some data =>
    match data.patterns with
    | [] => none
    | initial_pattern :: _ =>
      some
        { pos := some ⟨x, y⟩,
          vel := some ⟨0, 0⟩,
          health := some ⟨data.hp, data.hp⟩,
          sprite := some data.sprite,
          collider := some ⟨Config.ENEMY_HITBOX⟩,
          boss := some { boss_type := boss_type },
          bossAI := some { pattern_name := initial_pattern, pattern_cooldown := 3,
                           teleport_cooldown := data.teleport_cooldown_phase_1 } }

/-- BossAISystem._create_enemy_projectile, src/systems/boss_ai.py
lines 131-143: damage 1.0, owner -1 (no such entity ever exists),
Collider(Config.PROJECTILE_HITBOX), Sprite('*', 'yellow'). -/
def create_enemy_projectile (x y vx vy : ℝ) (w : World) : World :=
  (w.create
    { pos := some ⟨x, y⟩, vel := some ⟨vx, vy⟩,
      projectile := some ⟨1, -1⟩,
      collider := some ⟨Config.PROJECTILE_HITBOX⟩,
      sprite := some ⟨"*", "yellow"⟩ }).2

/-- BossAISystem._execute_pattern, src/systems/boss_ai.py lines 101-129. -/
noncomputable def execute_pattern (boss : BossC) (boss_ai : BossAIC) (pos : Pos)
    (w : World) : World :=
  match get_pattern_for_boss boss.boss_type boss.current_phase boss_ai.pattern_name with
  | none => w
  | some pattern_func =>
    (pattern_func pos.x pos.y).foldl
      (fun w pd => create_enemy_projectile pd.x pd.y pd.vx pd.vy w) w

/-- BossAISystem._check_phase_transition, src/systems/boss_ai.py lines 46-80.
Reads the boss's own components (the source receives them as aliases into the
store); a zero max health would raise ZeroDivisionError at the ratio, and a
boss type outside BOSS_DATA raises KeyError after the phase fields are
already mutated, exactly as in the source order. -/
noncomputable def check_phase_transition (boss_ent : ℤ) (s : Sim) : PRes Sim :=
  match get_comp s boss_ent (·.boss) with
  | .error err => .error err
  | .ok boss =>
  match get_comp s boss_ent (·.health) with
  | .error err => .error err
  | .ok health =>
  match get_comp s boss_ent (·.bossAI) with
  | .error err => .error err
  | .ok boss_ai =>
    if boss.has_transitioned then .ok s
    else if health.max = 0 then .error (.zeroDivErr, s)
    else if health.current / health.max ≤ boss.phase_2_threshold then
      let s1 := s.modify boss_ent (fun e =>
        { e with boss := some { boss with current_phase := 2, has_transitioned := true } })
      match BOSS_DATA boss.boss_type with
      | none => .error (.keyErr, s1)
      | some data =>
        let ai1 :=
          match data.phase_2_patterns with
          | p :: _ => { boss_ai with pattern_name := p }
          | [] => boss_ai
        let ai2 := { ai1 with teleport_cooldown := data.teleport_cooldown_phase_2 }
        let s2 := s1.modify boss_ent (fun e => { e with bossAI := some ai2 })
        .ok (s2.modify boss_ent (fun e =>
          { e with invincible := some Config.BOSS_PHASE_TRANSITION_INVULN }))
    else .ok s

/-- BossAISystem._update_pattern, src/systems/boss_ai.py lines 82-99. -/
noncomputable def update_pattern (dt : ℝ) (boss_ent : ℤ) (s : Sim) : PRes Sim :=
  match get_comp s boss_ent (·.boss) with
  | .error err => .error err
  | .ok boss =>
  match get_comp s boss_ent (·.bossAI) with
  | .error err => .error err
  | .ok boss_ai =>
  match get_comp s boss_ent (·.pos) with
  | .error err => .error err
  | .ok pos =>
    let ai1 := { boss_ai with pattern_timer := boss_ai.pattern_timer - dt }
    let s1 := s.modify boss_ent (fun e => { e with bossAI := some ai1 })
    if ai1.pattern_timer ≤ 0 then
      let s2 := { s1 with w := execute_pattern boss ai1 pos s1.w }
      .ok (s2.modify boss_ent (fun e =>
        { e with bossAI := some { ai1 with pattern_timer := ai1.pattern_cooldown } }))
    else
      .ok s1

/-- BossAISystem._teleport_boss, src/systems/boss_ai.py lines 164-193:
filter waypoints that are at least the safe distance from the player, fall
back to the unfiltered list when the filter empties it, and pick uniformly
(random.choice modelled by one natural draw mod the list length). -/
noncomputable def teleport_boss (boss_ent : ℤ) (player_pos : Option Pos) (s : Sim) :
    Sim :=
  let available := Config.BOSS_TELEPORT_POSITIONS
  let available1 :=
    match player_pos with
    | some pp =>
      let safe := available.filter (fun tp =>
        decide (Config.BOSS_TELEPORT_MIN_PLAYER_DISTANCE ≤
          Real.sqrt ((tp.1 - pp.x) ^ 2 + (tp.2 - pp.y) ^ 2)))
      if safe ≠ [] then safe else available
    | none => available
  if available1 ≠ [] then
    let (k, s1) := random_nat s
    match available1.get? (k % available1.length) with
    | some tp => s1.modify boss_ent (fun e => { e with pos := some ⟨tp.1, tp.2⟩ })
    | none => s1
  else s

/-- BossAISystem._update_teleport, src/systems/boss_ai.py lines 145-162. -/
noncomputable def update_teleport (dt : ℝ) (boss_ent : ℤ) (player_pos : Option Pos)
    (s : Sim) : PRes Sim :=
  match get_comp s boss_ent (·.bossAI) with
  | .error err => .error err
  | .ok boss_ai =>
    let ai1 := { boss_ai with teleport_timer := boss_ai.teleport_timer - dt }
    let s1 := s.modify boss_ent (fun e => { e with bossAI := some ai1 })
    if ai1.teleport_timer ≤ 0 then
      let s2 := teleport_boss boss_ent player_pos s1
      .ok (s2.modify boss_ent (fun e =>
        { e with bossAI := some { ai1 with teleport_timer := ai1.teleport_cooldown } }))
    else
      .ok s1

/-- The per-boss body of BossAISystem.process, src/systems/boss_ai.py
lines 34-44: phase transition, then pattern timer, then teleport timer. -/
noncomputable def boss_ai_tick (dt : ℝ) (player_pos : Option Pos) (boss_ent : ℤ)
    (s : Sim) : PRes Sim :=
  match check_phase_transition boss_ent s with
  | .error err => .error err
  | .ok s1 =>
  match update_pattern dt boss_ent s1 with
  | .error err => .error err
  | .ok s2 => update_teleport dt boss_ent player_pos s2

noncomputable def tick_bosses (dt : ℝ) (player_pos : Option Pos) :
    List ℤ → Sim → PRes Sim
  | [], s => .ok s
  | id :: rest, s =>
    match boss_ai_tick dt player_pos id s with
    | .error err => .error err
    | .ok s' => tick_bosses dt player_pos rest s'

/-- BossAISystem.process, src/systems/boss_ai.py lines 25-44: the first
(Player, Position) entity supplies the teleport-filter position, then every
(Boss, BossAI, Position, Health) entity is ticked. -/
noncomputable def boss_ai_process (dt : ℝ) (s : Sim) : PRes Sim :=
  tick_bosses dt
    ((s.w.store.find? (fun p => p.2.player && p.2.pos.isSome)).bind (fun p => p.2.pos))
    ((s.w.store.filter (fun p =>
      p.2.boss.isSome && p.2.bossAI.isSome && p.2.pos.isSome && p.2.health.isSome)).map Prod.fst)
    s

/-! ### Concrete states used by witnesses and concrete runs -/

/-- Concrete world for the C4 witness: a player and a boss-shaped entity. -/
def c4boss : Entity :=
  { boss := some { boss_type := "boss_a" }, pos := some ⟨30, 10⟩,
    collider := some ⟨0.5⟩, health := some ⟨50, 50⟩ }

/-- Concrete simulation state for the C4 witness. -/
def c4sim : Sim :=
  { w := { store := [(1, { player := true, pos := some ⟨0, 0⟩ }), (2, c4boss)],
           dead := [], nextId := 3 },
    rngF := fun _ => 0, rngN := fun _ => 0 }

/-- Concrete invincible player for the C5 witness. -/
def c5player : Entity :=
  { player := true, invincible := some 0.5, health := some ⟨3, 6⟩,
    pos := some ⟨0, 0⟩, collider := some ⟨0.3⟩ }

/-- Concrete simulation state for the C5 witness. -/
def c5sim : Sim :=
  { w := { store := [(1, c5player)], dead := [], nextId := 2 },
    rngF := fun _ => 0, rngN := fun _ => 0 }

/-- The explosive-tear player for the C2 run: collected item granting the
"explosive" effect (as the repository's own tests construct it). -/
def c2player : Entity :=
  { player := true, pos := some ⟨0, 0⟩, collider := some ⟨0.3⟩,
    health := some ⟨6, 6⟩,
    collected := some [⟨"explosive_tears", [], ["explosive"]⟩] }

/-- Enemy at (30, 10) with 3 health for the C2 run. -/
def c2enemy : Entity :=
  { enemy := some "chaser", pos := some ⟨30, 10⟩, collider := some ⟨0.5⟩,
    health := some ⟨3, 3⟩ }

/-- Player-owned projectile touching the enemy for the C2 run. -/
def c2proj : Entity :=
  { pos := some ⟨30, 10⟩, collider := some ⟨0.2⟩, projectile := some ⟨1, 1⟩ }

/-- Concrete simulation state for the C2 run. -/
def c2sim : Sim :=
  { w := { store := [(1, c2player), (2, c2enemy), (3, c2proj)], dead := [], nextId := 4 },
    rngF := fun _ => 0.5, rngN := fun _ => 0 }

/-- The state at the moment the TypeError is raised: only the direct
projectile damage has been applied. -/
def c2s1 : Sim :=
  c2sim.modify 2 (fun e => { e with health := some { current := 3 - 1, max := 3 } })

/-- Player with no items, at (10, 10), for the C1 run. -/
def c1player : Entity :=
  { player := true, pos := some ⟨10, 10⟩, collider := some ⟨0.3⟩,
    health := some ⟨6, 6⟩, collected := some [] }

/-- World for C1 scenario A: the player, plus a boss-pattern projectile
spawned on top of the player by _create_enemy_projectile. -/
def c1w : World :=
  create_enemy_projectile 10 10 1 0 { store := [(1, c1player)], dead := [], nextId := 2 }

/-- Simulation state for C1 scenario A. -/
def c1simA : Sim := { w := c1w, rngF := fun _ => 0.5, rngN := fun _ => 0 }

/-- Enemy for C1 scenario B. -/
def c1enemy : Entity :=
  { enemy := some "chaser", pos := some ⟨10, 10⟩, collider := some ⟨0.5⟩,
    health := some ⟨3, 3⟩ }

/-- World for C1 scenario B: an enemy, plus a boss-pattern projectile spawned
on top of it. -/
def c1wB : World :=
  create_enemy_projectile 10 10 1 0 { store := [(1, c1enemy)], dead := [], nextId := 2 }

/-- Simulation state for C1 scenario B. -/
def c1simB : Sim := { w := c1wB, rngF := fun _ => 0.5, rngN := fun _ => 0 }

/-- The state after the boss projectile hits the enemy in C1 scenario B. -/
def c1simB' : Sim :=
  (c1simB.modify 1 (fun e => { e with health := some { current := 3 - 1, max := 3 } })).del 2

/-- Positions of all item-pickup entities in the store (observation used to
state the loot-drop behaviour). -/
def item_positions (w : World) : List Pos :=
  w.store.filterMap (fun p =>
    match p.2.item, p.2.pos with
    | some _, some pos => some pos
    | _, _ => none)

/-- Positions of all coin entities in the store. -/
def coin_positions (w : World) : List Pos :=
  w.store.filterMap (fun p =>
    match p.2.coin, p.2.pos with
    | some _, some pos => some pos
    | _, _ => none)

/-- Enemy with 1 health at the bomb's center, for the C6 counterexample. -/
def c6enemy : Entity :=
  { enemy := some "chaser", pos := some ⟨5, 5⟩, collider := some ⟨0.5⟩,
    health := some ⟨1, 1⟩ }

/-- World holding only that enemy, for the C6 counterexample. -/
def c6w : World := { store := [(1, c6enemy)], dead := [], nextId := 2 }

/-- The world after a bomb blast centred on that enemy (the shared blast
primitive of src/systems/bomb.py applied to c6w). -/
noncomputable def c6blastW : World :=
  damage_entities_in_radius c6w ⟨5, 5⟩ Config.BOMB_BLAST_RADIUS

/-- Simulation state around the blast-damaged world, for the collision pass
that follows the blast in the C6 counterexample. -/
noncomputable def c6blastSim : Sim :=
  { w := c6blastW, rngF := fun _ => 1, rngN := fun _ => 0 }

/-- Projectile with an absent owner (no effects apply), lethal to c6enemy,
for the C6 witness. -/
def c6proj : Entity :=
  { pos := some ⟨5, 5⟩, collider := some ⟨0.2⟩, projectile := some ⟨1, 0⟩ }

/-- Simulation state for the C6 witness: the 1-health enemy and the lethal
projectile. -/
def c6sim : Sim :=
  { w := { store := [(1, c6enemy), (2, c6proj)], dead := [], nextId := 3 },
    rngF := fun _ => 1, rngN := fun _ => 0 }

/-- Player holding piercing_tears (grants "piercing", not "explosive"),
placed far from the action, for the C7 pass scenario. -/
def c7player : Entity :=
  { player := true, pos := some ⟨35, 15⟩, collider := some ⟨0.3⟩,
    health := some ⟨6, 6⟩,
    collected := some [⟨"piercing_tears", [("damage", 0.5)], ["piercing"]⟩] }

/-- Piercing projectile owned by the player, on top of both enemies. -/
def c7proj : Entity :=
  { pos := some ⟨5, 5⟩, collider := some ⟨0.2⟩, projectile := some ⟨1, 1⟩ }

/-- Enemy record used twice (ids 3 and 4) in the C7 pass scenario. -/
def c7enemy : Entity :=
  { enemy := some "chaser", pos := some ⟨5, 5⟩, collider := some ⟨0.5⟩,
    health := some ⟨3, 3⟩ }

/-- Simulation state for the C7 pass scenario: player far away, piercing
projectile overlapping two enemies. -/
def c7sim : Sim :=
  { w := { store := [(1, c7player), (2, c7proj), (3, c7enemy), (4, c7enemy)],
           dead := [], nextId := 5 },
    rngF := fun _ => 1, rngN := fun _ => 0 }

/-- State after the piercing projectile has damaged the first enemy. -/
def c7s1 : Sim :=
  c7sim.modify 3 (fun e => { e with health := some { current := 3 - 1, max := 3 } })

/-- State after it has also damaged the second enemy in the same pass. -/
def c7s2 : Sim :=
  c7s1.modify 4 (fun e => { e with health := some { current := 3 - 1, max := 3 } })

/-- Boss for the C3 witness: the components create_boss "boss_c" attaches at
(30, 10), with Health.current set to 50 out of 100 (the spec's concrete
scenario damages the boss to exactly the 50 percent threshold). -/
def c3boss : Entity :=
  { pos := some ⟨30, 10⟩, vel := some ⟨0, 0⟩, health := some ⟨50, 100⟩,
    sprite := some ⟨"K", "bright_red"⟩, collider := some ⟨Config.ENEMY_HITBOX⟩,
    boss := some { boss_type := "boss_c" },
    bossAI := some { pattern_name := "pulse", pattern_cooldown := 3 } }

/-- Simulation state for the C3 witness. -/
def c3sim : Sim :=
  { w := { store := [(1, c3boss)], dead := [], nextId := 2 },
    rngF := fun _ => 0, rngN := fun _ => 0 }

/-! ### Entity-store lemmas -/

theorem lookup_mem {l : List (ℤ × Entity)} {k : ℤ} {v : Entity}
    (h : l.lookup k = some v) : (k, v) ∈ l := by
  induction l with
  | nil => simp [List.lookup] at h
  | cons p ps ih =>
    rw [List.lookup] at h
    by_cases hk : k = p.1
    · subst hk
      simp at h
      subst h
      exact List.mem_cons_self _ _
    · have : (k == p.1) = false := beq_false_of_ne hk
      rw [this] at h
      exact List.mem_cons_of_mem _ (ih h)

theorem lookup_append_some {l l' : List (ℤ × Entity)} {k : ℤ} {v : Entity}
    (h : l.lookup k = some v) : (l ++ l').lookup k = some v := by
  induction l with
  | nil => simp [List.lookup] at h
  | cons p ps ih =>
    rw [List.cons_append, List.lookup]
    rw [List.lookup] at h
    cases hbeq : (k == p.1) with
    | true => rw [hbeq] at h; simpa using h
    | false => rw [hbeq] at h; exact ih h

theorem lookup_map_key_preserving {l : List (ℤ × Entity)} {k : ℤ}
    (f : ℤ × Entity → ℤ × Entity) (hkeys : ∀ p, (f p).1 = p.1) :
    (l.map f).lookup k = (l.lookup k).map (fun v => (f (k, v)).2) := by
  induction l with
  | nil => simp [List.lookup]
  | cons p ps ih =>
    rw [List.map_cons, List.lookup, List.lookup, hkeys p]
    cases hbeq : (k == p.1) with
    | true =>
      have hk : k = p.1 := by simpa using hbeq
      subst hk
      simp
    | false => simpa using ih

theorem get_modifyEnt_ne {w : World} {id mid : ℤ} (f : Entity → Entity)
    (h : id ≠ mid) : (w.modifyEnt mid f).get id = w.get id := by
  unfold World.modifyEnt World.get
  simp only
  rw [lookup_map_key_preserving (fun p => if p.1 = mid then (p.1, f p.2) else p)
    (by intro p; by_cases hp : p.1 = mid <;> simp [hp])]
  cases hl : w.store.lookup id with
  | none => rfl
  | some v => simp [h]

theorem get_modifyEnt_eq {w : World} {id : ℤ} {e : Entity} (f : Entity → Entity)
    (h : w.get id = some e) : (w.modifyEnt id f).get id = some (f e) := by
  unfold World.modifyEnt World.get
  unfold World.get at h
  simp only
  rw [lookup_map_key_preserving (fun p => if p.1 = id then (p.1, f p.2) else p)
    (by intro p; by_cases hp : p.1 = id <;> simp [hp])]
  rw [h]
  simp

theorem get_delete {w : World} {id did : ℤ} : (w.delete did).get id = w.get id := rfl

theorem dead_delete_mem {w : World} {id did : ℤ} :
    id ∈ (w.delete did).dead ↔ id ∈ w.dead ∨ id = did := by
  unfold World.delete
  by_cases h : did ∈ w.dead
  · simp only [if_pos h]
    constructor
    · exact Or.inl
    · rintro (hm | rfl)
      · exact hm
      · exact h
  · simp [if_neg h, List.mem_append]

theorem entity_exists_false_of_dead {w : World} {id : ℤ} (h : id ∈ w.dead) :
    w.entity_exists id = false := by
  unfold World.entity_exists
  simp [h]

theorem dead_delete_mono {w : World} {id did : ℤ} (h : id ∈ w.dead) :
    id ∈ (w.delete did).dead := dead_delete_mem.mpr (Or.inl h)

theorem get_create {w : World} {id : ℤ} {e e' : Entity}
    (h : w.get id = some e) : (w.create e').2.get id = some e := by
  unfold World.create World.get at *
  exact lookup_append_some h

theorem dead_create {w : World} {e' : Entity} : (w.create e').2.dead = w.dead := rfl

theorem dead_modifyEnt {w : World} {mid : ℤ} {f : Entity → Entity} :
    (w.modifyEnt mid f).dead = w.dead := rfl

theorem get_modifyEnt (w : World) (mid id : ℤ) (f : Entity → Entity) :
    (w.modifyEnt mid f).get id = (w.get id).map (fun v => if id = mid then f v else v) := by
  unfold World.modifyEnt World.get
  simp only
  rw [lookup_map_key_preserving (fun p => if p.1 = mid then (p.1, f p.2) else p)
    (by intro p; by_cases hp : p.1 = mid <;> simp [hp])]
  cases hl : w.store.lookup id with
  | none => rfl
  | some v => by_cases h : id = mid <;> simp [h]

theorem exists_modifyEnt {w : World} {mid id : ℤ} {f : Entity → Entity} :
    (w.modifyEnt mid f).entity_exists id = w.entity_exists id := by
  unfold World.entity_exists World.modifyEnt
  simp only
  rw [lookup_map_key_preserving (fun p => if p.1 = mid then (p.1, f p.2) else p)
    (by intro p; by_cases hp : p.1 = mid <;> simp [hp])]
  cases w.store.lookup id <;> rfl

theorem hasc_modifyEnt {w : World} {mid id : ℤ} {f : Entity → Entity} (g : Entity → Bool)
    (hf : ∀ e, g (f e) = g e) : hasc (w.modifyEnt mid f) id g = hasc w id g := by
  unfold hasc
  rw [get_modifyEnt]
  cases hl : w.get id with
  | none => rfl
  | some v =>
    by_cases h : id = mid
    · simp [h, hf v]
    · simp [h]

theorem ope_modify {s : Sim} {y o : ℤ} {eff : String} (f : Entity → Entity)
    (hf : ∀ e, (f e).player = e.player ∧ (f e).collected = e.collected) :
    owner_player_effect (s.modify y f).w o eff = owner_player_effect s.w o eff := by
  unfold owner_player_effect Sim.modify
  simp only
  rw [exists_modifyEnt, hasc_modifyEnt (fun e => e.player) (fun e => (hf e).1)]
  rw [get_modifyEnt]
  cases hl : s.w.get o with
  | none => rfl
  | some v =>
    by_cases h : o = y
    · simp [hl, h, (hf v).2]
    · simp [hl, h]

theorem ope_modify_health {s : Sim} {y o : ℤ} {eff : String} {hc : Option HealthC} :
    owner_player_effect (s.modify y (fun e => { e with health := hc })).w o eff
      = owner_player_effect s.w o eff :=
  ope_modify _ (fun e => ⟨rfl, rfl⟩)

theorem if_bool_false {α : Sort _} {c : Bool} (h : c = false) (a b : α) :
    (if c then a else b) = b := by
  rw [h]
  rfl

theorem if_bool_true {α : Sort _} {c : Bool} (h : c = true) (a b : α) :
    (if c then a else b) = a := by
  rw [h]
  rfl

/-- Specification of projectile_hit_enemy on the surviving-enemy path:
no explosive effect, a piercing flag, and damage that leaves the enemy above
zero health. -/
theorem phe_survive {bp : Bool} {x y : ℤ} {s : Sim} {proj : ProjectileC} {h : HealthC}
    (piercing : Bool)
    (hp : get_comp s x (fun e => e.projectile) = .ok proj)
    (hh : get_comp s y (fun e => e.health) = .ok h)
    (hexp : owner_player_effect s.w proj.owner "explosive" = false)
    (hpier : owner_player_effect s.w proj.owner "piercing" = piercing)
    (halive : ¬ (h.current - proj.damage ≤ 0)) :
    projectile_hit_enemy bp x y s = .ok (
      let s1 := s.modify y (fun e =>
        { e with health := some { h with current := h.current - proj.damage } })
      if !piercing then s1.del x else s1) := by
  unfold projectile_hit_enemy
  rw [hp]
  dsimp only
  rw [hh]
  dsimp only
  rw [ope_modify_health, hexp]
  rw [if_bool_false (by simp)]
  rw [ope_modify_health, hpier]
  rw [if_neg halive]

theorem filterMap_map_modify {α : Type} (l : List (ℤ × Entity)) (y : ℤ)
    (f : Entity → Entity) (g : ℤ × Entity → Option α)
    (hf : ∀ k e, g (k, f e) = g (k, e)) :
    ((l.map (fun p => if p.1 = y then (p.1, f p.2) else p)).filterMap g)
      = l.filterMap g := by
  induction l with
  | nil => rfl
  | cons p ps ih =>
    rw [List.map_cons, List.filterMap_cons, List.filterMap_cons]
    by_cases h : p.1 = y
    · rw [if_pos h]
      have hg : g (p.1, f p.2) = g p := by
        rw [hf p.1 p.2]
      rw [hg]
      cases g p <;> simp [ih]
    · rw [if_neg h]
      cases g p <;> simp [ih]

theorem item_positions_modify {w : World} {y : ℤ} (f : Entity → Entity)
    (hf : ∀ e, (f e).item = e.item ∧ (f e).pos = e.pos) :
    item_positions (w.modifyEnt y f) = item_positions w := by
  unfold item_positions World.modifyEnt
  exact filterMap_map_modify _ y f _ (by
    intro k e
    simp only [(hf e).1, (hf e).2])

theorem coin_positions_modify {w : World} {y : ℤ} (f : Entity → Entity)
    (hf : ∀ e, (f e).coin = e.coin ∧ (f e).pos = e.pos) :
    coin_positions (w.modifyEnt y f) = coin_positions w := by
  unfold coin_positions World.modifyEnt
  exact filterMap_map_modify _ y f _ (by
    intro k e
    simp only [(hf e).1, (hf e).2])

theorem item_positions_delete {w : World} {d : ℤ} :
    item_positions (w.delete d) = item_positions w := rfl

theorem coin_positions_delete {w : World} {d : ℤ} :
    coin_positions (w.delete d) = coin_positions w := rfl

theorem item_positions_create {w : World} {e : Entity} :
    item_positions (w.create e).2 = item_positions w
      ++ (match e.item, e.pos with
          | some _, some p => [p]
          | _, _ => []) := by
  unfold item_positions World.create
  simp only
  rw [List.filterMap_append]
  cases hi : e.item <;> cases hp : e.pos <;> simp [List.filterMap, hi, hp]

theorem coin_positions_create {w : World} {e : Entity} :
    coin_positions (w.create e).2 = coin_positions w
      ++ (match e.coin, e.pos with
          | some _, some p => [p]
          | _, _ => []) := by
  unfold coin_positions World.create
  simp only
  rw [List.filterMap_append]
  cases hi : e.coin <;> cases hp : e.pos <;> simp [List.filterMap, hi, hp]

theorem item_defs_total : ∀ i, i < 8 →
    (ITEM_DEFINITIONS (ITEM_POOL.getD i "")).isSome = true := by
  decide

/-- State delta of spawn_random_item: always succeeds (every pool name is in
ITEM_DEFINITIONS), adds one item entity at the given position, consumes one
natural draw, and touches nothing else. -/
theorem spawn_random_item_spec (x y : ℝ) (s : Sim) :
    ∃ s', spawn_random_item x y s = .ok s'
    ∧ item_positions s'.w = item_positions s.w ++ [⟨x, y⟩]
    ∧ coin_positions s'.w = coin_positions s.w
    ∧ s'.w.dead = s.w.dead
    ∧ (∀ id e, s.w.get id = some e → s'.w.get id = some e)
    ∧ s'.rngF = s.rngF ∧ s'.fIdx = s.fIdx
    ∧ s'.rngN = s.rngN ∧ s'.nIdx = s.nIdx + 1 := by
  unfold spawn_random_item create_item random_nat
  dsimp only
  have hlt : s.rngN s.nIdx % ITEM_POOL.length < 8 := by
    have : ITEM_POOL.length = 8 := rfl
    rw [this]
    exact Nat.mod_lt _ (by norm_num)
  have hsome := item_defs_total _ hlt
  cases hdef : ITEM_DEFINITIONS (ITEM_POOL.getD (s.rngN s.nIdx % ITEM_POOL.length) "") with
  | none => rw [hdef] at hsome; simp at hsome
  | some d =>
    refine ⟨_, rfl, ?_, ?_, rfl, ?_, rfl, rfl, rfl, rfl⟩
    · rw [item_positions_create]
    · rw [coin_positions_create]
      simp
    · intro id e h
      exact get_create h

/-- State delta of spawn_coin. -/
theorem spawn_coin_spec (x y : ℝ) (w : World) :
    coin_positions (spawn_coin x y w) = coin_positions w ++ [⟨x, y⟩]
    ∧ item_positions (spawn_coin x y w) = item_positions w
    ∧ (spawn_coin x y w).dead = w.dead
    ∧ (∀ id e, w.get id = some e → (spawn_coin x y w).get id = some e) := by
  unfold spawn_coin
  refine ⟨?_, ?_, rfl, ?_⟩
  · rw [coin_positions_create]
  · rw [item_positions_create]
    simp
  · intro id e h
    exact get_create h

/-- State delta of the 1-2 coin spawning loop. -/
theorem spawn_coins_fold_spec (n : ℕ) (x y : ℝ) (w : World) :
    coin_positions ((List.range n).foldl (fun w _ => spawn_coin x y w) w)
      = coin_positions w ++ List.replicate n ⟨x, y⟩
    ∧ item_positions ((List.range n).foldl (fun w _ => spawn_coin x y w) w)
      = item_positions w
    ∧ ((List.range n).foldl (fun w _ => spawn_coin x y w) w).dead = w.dead
    ∧ (∀ id e, w.get id = some e →
        ((List.range n).foldl (fun w _ => spawn_coin x y w) w).get id = some e) := by
  induction n with
  | zero => exact ⟨by simp, rfl, rfl, fun id e h => h⟩
  | succ n ih =>
    rw [List.range_succ, List.foldl_append]
    obtain ⟨h1, h2, h3, h4⟩ := ih
    have hs := spawn_coin_spec x y ((List.range n).foldl (fun w _ => spawn_coin x y w) w)
    refine ⟨?_, ?_, ?_, ?_⟩
    · rw [List.foldl_cons, List.foldl_nil, hs.1, h1, List.append_assoc]
      rw [show List.replicate n (⟨x, y⟩ : Pos) ++ [⟨x, y⟩]
          = List.replicate (n + 1) ⟨x, y⟩ from (List.replicate_succ' _ _).symm]
    · rw [List.foldl_cons, List.foldl_nil, hs.2.1, h2]
    · rw [List.foldl_cons, List.foldl_nil, hs.2.2.1, h3]
    · intro id e h
      rw [List.foldl_cons, List.foldl_nil]
      exact hs.2.2.2 _ _ (h4 _ _ h)

/-- Specification of projectile_hit_enemy on the lethal path: the enemy is
deleted after two independent drop rolls; an item spawns at the enemy's last
position iff the first draw is below ITEM_DROP_CHANCE, and 1 + k % 2 coins
spawn there iff the second draw is below ENEMY_COIN_DROP_CHANCE. -/
theorem phe_death {bp : Bool} {x y : ℤ} {s : Sim} {proj : ProjectileC} {h : HealthC}
    {ey : Entity} {pos : Pos} (piercing : Bool)
    (hp : get_comp s x (fun e => e.projectile) = .ok proj)
    (hh : get_comp s y (fun e => e.health) = .ok h)
    (hgy : s.w.get y = some ey)
    (hey : ey.pos = some pos)
    (hxy : x ≠ y)
    (hexp : owner_player_effect s.w proj.owner "explosive" = false)
    (hpier : owner_player_effect s.w proj.owner "piercing" = piercing)
    (hdead : h.current - proj.damage ≤ 0) :
    ∃ s', projectile_hit_enemy bp x y s = .ok s'
    ∧ s'.w.entity_exists y = false
    ∧ y ∈ s'.w.dead
    ∧ item_positions s'.w = item_positions s.w
        ++ (if s.rngF s.fIdx < Config.ITEM_DROP_CHANCE then [pos] else [])
    ∧ coin_positions s'.w = coin_positions s.w
        ++ (if s.rngF (s.fIdx + 1) < Config.ENEMY_COIN_DROP_CHANCE then
              List.replicate
                (1 + (s.rngN (if s.rngF s.fIdx < Config.ITEM_DROP_CHANCE
                  then s.nIdx + 1 else s.nIdx)) % 2) pos
            else [])
    ∧ (piercing = true →
        (∀ ex, s.w.get x = some ex → s'.w.get x = some ex)
        ∧ (x ∈ s'.w.dead ↔ x ∈ s.w.dead)) := by
  unfold projectile_hit_enemy
  rw [hp]
  dsimp only
  rw [hh]
  dsimp only
  rw [ope_modify_health, hexp]
  rw [if_bool_false (by simp)]
  rw [ope_modify_health, hpier]
  rw [if_pos hdead]
  have hprops :
      (if !piercing then
        ((s.modify y (fun e =>
          { e with health := some { h with current := h.current - proj.damage } })).del x)
      else
        (s.modify y (fun e =>
          { e with health := some { h with current := h.current - proj.damage } }))).rngF = s.rngF
      ∧ (if !piercing then
        ((s.modify y (fun e =>
          { e with health := some { h with current := h.current - proj.damage } })).del x)
      else
        (s.modify y (fun e =>
          { e with health := some { h with current := h.current - proj.damage } }))).fIdx = s.fIdx
      ∧ (if !piercing then
        ((s.modify y (fun e =>
          { e with health := some { h with current := h.current - proj.damage } })).del x)
      else
        (s.modify y (fun e =>
          { e with health := some { h with current := h.current - proj.damage } }))).rngN = s.rngN
      ∧ (if !piercing then
        ((s.modify y (fun e =>
          { e with health := some { h with current := h.current - proj.damage } })).del x)
      else
        (s.modify y (fun e =>
          { e with health := some { h with current := h.current - proj.damage } }))).nIdx = s.nIdx
      ∧ item_positions (if !piercing then
        ((s.modify y (fun e =>
          { e with health := some { h with current := h.current - proj.damage } })).del x)
      else
        (s.modify y (fun e =>
          { e with health := some { h with current := h.current - proj.damage } }))).w
        = item_positions s.w
      ∧ coin_positions (if !piercing then
        ((s.modify y (fun e =>
          { e with health := some { h with current := h.current - proj.damage } })).del x)
      else
        (s.modify y (fun e =>
          { e with health := some { h with current := h.current - proj.damage } }))).w
        = coin_positions s.w
      ∧ (if !piercing then
        ((s.modify y (fun e =>
          { e with health := some { h with current := h.current - proj.damage } })).del x)
      else
        (s.modify y (fun e =>
          { e with health := some { h with current := h.current - proj.damage } }))).w.get y
        = some { ey with health := some { h with current := h.current - proj.damage } }
      ∧ (piercing = true → (if !piercing then
        ((s.modify y (fun e =>
          { e with health := some { h with current := h.current - proj.damage } })).del x)
      else
        (s.modify y (fun e =>
          { e with health := some { h with current := h.current - proj.damage } }))).w.get x
        = s.w.get x)
      ∧ (piercing = true → (if !piercing then
        ((s.modify y (fun e =>
          { e with health := some { h with current := h.current - proj.damage } })).del x)
      else
        (s.modify y (fun e =>
          { e with health := some { h with current := h.current - proj.damage } }))).w.dead
        = s.w.dead) := by
    cases piercing
    · simp only [if_pos (show (!false) = true from rfl)]
      refine ⟨rfl, rfl, rfl, rfl, ?_, ?_, ?_, fun hc => Bool.noConfusion hc, fun hc => Bool.noConfusion hc⟩
      · exact item_positions_modify
          (fun e => { e with health := some { h with current := h.current - proj.damage } })
          (fun e => ⟨rfl, rfl⟩)
      · exact coin_positions_modify
          (fun e => { e with health := some { h with current := h.current - proj.damage } })
          (fun e => ⟨rfl, rfl⟩)
      · exact get_modifyEnt_eq
          (fun e => { e with health := some { h with current := h.current - proj.damage } }) hgy
    · simp only [if_neg (show ¬ ((!true) = true) from by simp)]
      refine ⟨rfl, rfl, rfl, rfl, ?_, ?_, ?_,
        fun _ => get_modifyEnt_ne
          (fun e => { e with health := some { h with current := h.current - proj.damage } }) hxy,
        fun _ => rfl⟩
      · exact item_positions_modify
          (fun e => { e with health := some { h with current := h.current - proj.damage } })
          (fun e => ⟨rfl, rfl⟩)
      · exact coin_positions_modify
          (fun e => { e with health := some { h with current := h.current - proj.damage } })
          (fun e => ⟨rfl, rfl⟩)
      · exact get_modifyEnt_eq _ hgy
  set s2 := (if !piercing then
        ((s.modify y (fun e =>
          { e with health := some { h with current := h.current - proj.damage } })).del x)
      else
        (s.modify y (fun e =>
          { e with health := some { h with current := h.current - proj.damage } }))) with hs2def
  obtain ⟨hrF, hfI, hrN, hnI, hitem2, hcoin2, hgety2, hgetx2, hdead2⟩ := hprops
  have hgc : get_comp s2 y (fun e => e.pos) = .ok pos := by
    unfold get_comp
    rw [hgety2]
    dsimp only
    rw [hey]
  rw [hgc]
  dsimp only [random_random]
  rw [show s2.rngF s2.fIdx = s.rngF s.fIdx from by rw [hrF, hfI]]
  by_cases hr1 : s.rngF s.fIdx < Config.ITEM_DROP_CHANCE
  · rw [if_pos hr1]
    obtain ⟨s4, hs4run, hs4item, hs4coin, hs4dead, hs4get, hs4rF, hs4fI, hs4rN, hs4nI⟩ :=
      spawn_random_item_spec pos.x pos.y { s2 with fIdx := s2.fIdx + 1 }
    rw [hs4run]
    dsimp only [random_random]
    have hr2eq : s4.rngF s4.fIdx = s.rngF (s.fIdx + 1) := by
      rw [hs4rF, hs4fI]
      dsimp only
      rw [hrF, hfI]
    rw [hr2eq]
    by_cases hr2 : s.rngF (s.fIdx + 1) < Config.ENEMY_COIN_DROP_CHANCE
    · rw [if_pos hr2]
      dsimp only [random_nat]
      have hkeq : s4.rngN s4.nIdx = s.rngN (s.nIdx + 1) := by
        rw [hs4rN, hs4nI]
        dsimp only
        rw [hrN, hnI]
      rw [hkeq]
      obtain ⟨hcf, hif, hdf, hgf⟩ := spawn_coins_fold_spec
        (1 + s.rngN (s.nIdx + 1) % 2) pos.x pos.y s4.w
      refine ⟨_, rfl, ?_, ?_, ?_, ?_, ?_⟩
      · exact entity_exists_false_of_dead (dead_delete_mem.mpr (Or.inr rfl))
      · exact dead_delete_mem.mpr (Or.inr rfl)
      · dsimp only [Sim.del]
        rw [item_positions_delete, hif, hs4item]
        dsimp only
        rw [hitem2, if_pos hr1]
      · dsimp only [Sim.del]
        rw [coin_positions_delete, hcf, hs4coin]
        dsimp only
        rw [hcoin2, if_pos hr2, if_pos hr1]
      · intro hpt
        have h2fact : ∀ ex, s.w.get x = some ex → s2.w.get x = some ex := by
          intro ex hex
          rw [hgetx2 hpt]
          exact hex
        refine ⟨?_, ?_⟩
        · intro ex hex
          exact hgf x ex (hs4get x ex (h2fact ex hex))
        · have hchain : ((List.range (1 + s.rngN (s.nIdx + 1) % 2)).foldl
              (fun w _ => spawn_coin pos.x pos.y w) s4.w).dead = s.w.dead := by
            rw [hdf, hs4dead]
            exact hdead2 hpt
          constructor
          · intro hx
            rcases dead_delete_mem.mp hx with hmem | heq
            · rwa [hchain] at hmem
            · exact absurd heq hxy
          · intro hx
            exact dead_delete_mem.mpr (Or.inl (by rw [hchain]; exact hx))
    · rw [if_neg hr2]
      refine ⟨_, rfl, ?_, ?_, ?_, ?_, ?_⟩
      · exact entity_exists_false_of_dead (dead_delete_mem.mpr (Or.inr rfl))
      · exact dead_delete_mem.mpr (Or.inr rfl)
      · dsimp only [Sim.del]
        rw [item_positions_delete]
        rw [hs4item]
        dsimp only
        rw [hitem2, if_pos hr1]
      · dsimp only [Sim.del]
        rw [coin_positions_delete]
        rw [hs4coin]
        dsimp only
        rw [hcoin2, if_neg hr2]
        simp
      · intro hpt
        have h2fact : ∀ ex, s.w.get x = some ex → s2.w.get x = some ex := by
          intro ex hex
          rw [hgetx2 hpt]
          exact hex
        refine ⟨?_, ?_⟩
        · intro ex hex
          exact hs4get x ex (h2fact ex hex)
        · have hchain : s4.w.dead = s.w.dead := by
            rw [hs4dead]
            exact hdead2 hpt
          constructor
          · intro hx
            rcases dead_delete_mem.mp hx with hmem | heq
            · rwa [hchain] at hmem
            · exact absurd heq hxy
          · intro hx
            exact dead_delete_mem.mpr (Or.inl (by rw [hchain]; exact hx))
  · rw [if_neg hr1]
    dsimp only [random_random]
    rw [show s2.rngF (s2.fIdx + 1) = s.rngF (s.fIdx + 1) from by rw [hrF, hfI]]
    by_cases hr2 : s.rngF (s.fIdx + 1) < Config.ENEMY_COIN_DROP_CHANCE
    · rw [if_pos hr2]
      dsimp only [random_nat]
      rw [show s2.rngN s2.nIdx = s.rngN s.nIdx from by rw [hrN, hnI]]
      obtain ⟨hcf, hif, hdf, hgf⟩ := spawn_coins_fold_spec
        (1 + s.rngN s.nIdx % 2) pos.x pos.y s2.w
      refine ⟨_, rfl, ?_, ?_, ?_, ?_, ?_⟩
      · exact entity_exists_false_of_dead (dead_delete_mem.mpr (Or.inr rfl))
      · exact dead_delete_mem.mpr (Or.inr rfl)
      · dsimp only [Sim.del]
        rw [item_positions_delete, hif, hitem2, if_neg hr1]
        simp
      · dsimp only [Sim.del]
        rw [coin_positions_delete, hcf, hcoin2, if_pos hr2, if_neg hr1]
      · intro hpt
        have h2fact : ∀ ex, s.w.get x = some ex → s2.w.get x = some ex := by
          intro ex hex
          rw [hgetx2 hpt]
          exact hex
        refine ⟨?_, ?_⟩
        · intro ex hex
          exact hgf x ex (h2fact ex hex)
        · have hchain : ((List.range (1 + s.rngN s.nIdx % 2)).foldl
              (fun w _ => spawn_coin pos.x pos.y w) s2.w).dead = s.w.dead := by
            rw [hdf]
            exact hdead2 hpt
          constructor
          · intro hx
            rcases dead_delete_mem.mp hx with hmem | heq
            · rwa [hchain] at hmem
            · exact absurd heq hxy
          · intro hx
            exact dead_delete_mem.mpr (Or.inl (by rw [hchain]; exact hx))
    · rw [if_neg hr2]
      refine ⟨_, rfl, ?_, ?_, ?_, ?_, ?_⟩
      · exact entity_exists_false_of_dead (dead_delete_mem.mpr (Or.inr rfl))
      · exact dead_delete_mem.mpr (Or.inr rfl)
      · dsimp only [Sim.del]
        rw [item_positions_delete]
        rw [hitem2, if_neg hr1]
        simp
      · dsimp only [Sim.del]
        rw [coin_positions_delete]
        rw [hcoin2, if_neg hr2]
        simp
      · intro hpt
        have h2fact : ∀ ex, s.w.get x = some ex → s2.w.get x = some ex := by
          intro ex hex
          rw [hgetx2 hpt]
          exact hex
        refine ⟨?_, ?_⟩
        · intro ex hex
          exact h2fact ex hex
        · have hchain : s2.w.dead = s.w.dead := hdead2 hpt
          constructor
          · intro hx
            rcases dead_delete_mem.mp hx with hmem | heq
            · rwa [hchain] at hmem
            · exact absurd heq hxy
          · intro hx
            exact dead_delete_mem.mpr (Or.inl (by rw [hchain]; exact hx))

/-- The bomb blast touches only health values: it neither removes store
entries nor marks anything deleted, so entity_exists is unchanged. -/
theorem blast_keeps_entities (w : World) (center : Pos) (radius : ℝ) (id : ℤ) :
    (damage_entities_in_radius w center radius).entity_exists id
      = w.entity_exists id := by
  unfold damage_entities_in_radius World.entity_exists
  dsimp only
  rw [lookup_map_key_preserving (fun p => (p.1, blast_update center radius p.2))
    (fun p => rfl)]
  cases hl : w.store.lookup id <;> rfl

/-- Concrete evaluation of the blast on the C6 world: the enemy's health
drops by BOMB_DAMAGE (to 0) and nothing else changes. -/
theorem c6_blast_eval : c6blastW
    = { store := [(1, { c6enemy with health := some ⟨1 - Config.BOMB_DAMAGE, 1⟩ })],
        dead := [], nextId := 2 } := by
  have hbu : blast_update ⟨5, 5⟩ Config.BOMB_BLAST_RADIUS c6enemy
      = { c6enemy with health := some ⟨1 - Config.BOMB_DAMAGE, 1⟩ } := by
    unfold blast_update c6enemy
    dsimp only
    rw [if_neg (by norm_num : ¬ ((1:ℝ) ≤ 0))]
    rw [if_neg (by simp : ¬ ((false && (none : Option ℝ).isSome) = true))]
    rw [if_pos (show Real.sqrt (((5:ℝ) - 5) ^ 2 + ((5:ℝ) - 5) ^ 2)
        ≤ Config.BOMB_BLAST_RADIUS from by
      rw [show ((5:ℝ) - 5) ^ 2 + ((5:ℝ) - 5) ^ 2 = 0 by norm_num, Real.sqrt_zero]
      norm_num [Config.BOMB_BLAST_RADIUS])]
  show damage_entities_in_radius c6w ⟨5, 5⟩ Config.BOMB_BLAST_RADIUS = _
  unfold damage_entities_in_radius c6w
  dsimp only [List.map]
  rw [hbu]

/-- Pointwise some-preservation of the store plus an unchanged dead-status
give preservation of entity_exists. -/
theorem entity_exists_of_keep {w w' : World} {x : ℤ}
    (hget : ∀ ex, w.get x = some ex → w'.get x = some ex)
    (hdead : x ∈ w'.dead ↔ x ∈ w.dead)
    (h : w.entity_exists x = true) : w'.entity_exists x = true := by
  unfold World.entity_exists at h ⊢
  rw [Bool.and_eq_true] at h ⊢
  obtain ⟨h1, h2⟩ := h
  constructor
  · rw [Option.isSome_iff_exists] at h1
    obtain ⟨ex, hex⟩ := h1
    have := hget ex hex
    unfold World.get at this
    rw [this]
    rfl
  · have hd : ¬ x ∈ w.dead := by simpa using h2
    simpa using fun hx => hd (hdead.mp hx)

/-- Spawning boss projectiles only appends fresh entities: every existing
store entry is preserved. -/
theorem cep_fold_get {b : ℤ} {e : Entity} :
    ∀ (l : List ProjData) (w : World), w.get b = some e →
      (l.foldl (fun w pd => create_enemy_projectile pd.x pd.y pd.vx pd.vy w) w).get b
        = some e := by
  intro l
  induction l with
  | nil =>
    intro w h
    exact h
  | cons pd rest ih =>
    intro w h
    rw [List.foldl_cons]
    exact ih _ (get_create h)

/-- _execute_pattern only creates projectile entities; it changes no existing
entry. -/
theorem ep_get_preserved (boss : BossC) (ai : BossAIC) (pos : Pos) {w : World}
    {b : ℤ} {e : Entity} (h : w.get b = some e) :
    (execute_pattern boss ai pos w).get b = some e := by
  unfold execute_pattern
  cases get_pattern_for_boss boss.boss_type boss.current_phase ai.pattern_name with
  | none => exact h
  | some f => exact cep_fold_get _ _ h

/-- State delta of _update_pattern on a well-formed boss: it rewrites only the
boss's BossAI component, and only its pattern_timer field. -/
theorem update_pattern_spec (dt : ℝ) (b : ℤ) (s : Sim) (e : Entity) (boss : BossC)
    (a : BossAIC) (bpos : Pos)
    (hget : s.w.get b = some e) (hb : e.boss = some boss) (ha : e.bossAI = some a)
    (hp : e.pos = some bpos) :
    ∃ s' a', update_pattern dt b s = .ok s'
      ∧ s'.w.get b = some { e with bossAI := some a' }
      ∧ a'.pattern_name = a.pattern_name
      ∧ a'.teleport_cooldown = a.teleport_cooldown := by
  unfold update_pattern
  have hgc1 : get_comp s b (fun e => e.boss) = .ok boss := by
    unfold get_comp
    rw [hget]
    dsimp only
    rw [hb]
  have hgc2 : get_comp s b (fun e => e.bossAI) = .ok a := by
    unfold get_comp
    rw [hget]
    dsimp only
    rw [ha]
  have hgc3 : get_comp s b (fun e => e.pos) = .ok bpos := by
    unfold get_comp
    rw [hget]
    dsimp only
    rw [hp]
  rw [hgc1]
  dsimp only
  rw [hgc2]
  dsimp only
  rw [hgc3]
  dsimp only
  by_cases ht : a.pattern_timer - dt ≤ 0
  · rw [if_pos ht]
    refine ⟨_, { a with pattern_timer := a.pattern_cooldown }, rfl, ?_, rfl, rfl⟩
    have hinner : (s.w.modifyEnt b (fun rec =>
        { rec with bossAI := some { a with pattern_timer := a.pattern_timer - dt } })).get b
        = some { e with bossAI := some { a with pattern_timer := a.pattern_timer - dt } } :=
      get_modifyEnt_eq _ hget
    have hmid := ep_get_preserved boss { a with pattern_timer := a.pattern_timer - dt }
      bpos hinner
    have hfin := get_modifyEnt_eq (fun rec =>
      { rec with bossAI := some { a with pattern_timer := a.pattern_cooldown } }) hmid
    exact hfin
  · rw [if_neg ht]
    exact ⟨_, { a with pattern_timer := a.pattern_timer - dt }, rfl,
      get_modifyEnt_eq _ hget, rfl, rfl⟩

/-- _teleport_boss moves only the boss's Position; Boss, Invincible and
BossAI components are untouched. -/
theorem teleport_boss_spec (b : ℤ) (pp : Option Pos) (s : Sim) {e : Entity}
    (hget : s.w.get b = some e) :
    ∃ e2, (teleport_boss b pp s).w.get b = some e2
      ∧ e2.boss = e.boss ∧ e2.invincible = e.invincible ∧ e2.bossAI = e.bossAI := by
  unfold teleport_boss
  cases pp with
  | none =>
    dsimp only
    rw [if_pos (by simp [Config.BOSS_TELEPORT_POSITIONS] :
      Config.BOSS_TELEPORT_POSITIONS ≠ [])]
    dsimp only [random_nat]
    cases hn : Config.BOSS_TELEPORT_POSITIONS.get?
        (s.rngN s.nIdx % Config.BOSS_TELEPORT_POSITIONS.length) with
    | none => exact ⟨e, hget, rfl, rfl, rfl⟩
    | some tp => exact ⟨_, get_modifyEnt_eq _ hget, rfl, rfl, rfl⟩
  | some ppos =>
    dsimp only
    by_cases hs : Config.BOSS_TELEPORT_POSITIONS.filter (fun tp =>
        decide (Config.BOSS_TELEPORT_MIN_PLAYER_DISTANCE ≤
          Real.sqrt ((tp.1 - ppos.x) ^ 2 + (tp.2 - ppos.y) ^ 2))) ≠ []
    · rw [if_pos hs, if_pos hs]
      dsimp only [random_nat]
      cases hn : (Config.BOSS_TELEPORT_POSITIONS.filter (fun tp =>
          decide (Config.BOSS_TELEPORT_MIN_PLAYER_DISTANCE ≤
            Real.sqrt ((tp.1 - ppos.x) ^ 2 + (tp.2 - ppos.y) ^ 2)))).get?
          (s.rngN s.nIdx % (Config.BOSS_TELEPORT_POSITIONS.filter (fun tp =>
            decide (Config.BOSS_TELEPORT_MIN_PLAYER_DISTANCE ≤
              Real.sqrt ((tp.1 - ppos.x) ^ 2 + (tp.2 - ppos.y) ^ 2)))).length) with
    | none => exact ⟨e, hget, rfl, rfl, rfl⟩
    | some tp => exact ⟨_, get_modifyEnt_eq _ hget, rfl, rfl, rfl⟩
    · rw [if_neg hs]
      rw [if_pos (by simp [Config.BOSS_TELEPORT_POSITIONS] :
        Config.BOSS_TELEPORT_POSITIONS ≠ [])]
      dsimp only [random_nat]
      cases hn : Config.BOSS_TELEPORT_POSITIONS.get?
          (s.rngN s.nIdx % Config.BOSS_TELEPORT_POSITIONS.length) with
      | none => exact ⟨e, hget, rfl, rfl, rfl⟩
      | some tp => exact ⟨_, get_modifyEnt_eq _ hget, rfl, rfl, rfl⟩

/-- State delta of _update_teleport: the boss's Boss and Invincible components
and the BossAI pattern_name and teleport_cooldown fields survive the step. -/
theorem update_teleport_spec (dt : ℝ) (b : ℤ) (pp : Option Pos) (s : Sim)
    (e : Entity) (a : BossAIC)
    (hget : s.w.get b = some e) (ha : e.bossAI = some a) :
    ∃ s' e', update_teleport dt b pp s = .ok s'
      ∧ s'.w.get b = some e'
      ∧ e'.boss = e.boss
      ∧ e'.invincible = e.invincible
      ∧ ∃ a', e'.bossAI = some a'
          ∧ a'.pattern_name = a.pattern_name
          ∧ a'.teleport_cooldown = a.teleport_cooldown := by
  unfold update_teleport
  have hgc : get_comp s b (fun e => e.bossAI) = .ok a := by
    unfold get_comp
    rw [hget]
    dsimp only
    rw [ha]
  rw [hgc]
  dsimp only
  by_cases ht : a.teleport_timer - dt ≤ 0
  · rw [if_pos ht]
    obtain ⟨e2, hg2, hb2, hi2, hai2⟩ :=
      teleport_boss_spec b pp (s.modify b (fun rec =>
        { rec with bossAI := some { a with teleport_timer := a.teleport_timer - dt } }))
        (get_modifyEnt_eq (fun rec =>
          { rec with bossAI := some { a with teleport_timer := a.teleport_timer - dt } })
          hget)
    refine ⟨_, _, rfl, get_modifyEnt_eq _ hg2, ?_, ?_, ?_⟩
    · exact hb2
    · exact hi2
    · exact ⟨_, rfl, rfl, rfl⟩
  · rw [if_neg ht]
    exact ⟨_, _, rfl, get_modifyEnt_eq _ hget, rfl, rfl, _, rfl, rfl, rfl⟩

/-! ### Claim theorems -/

/-- Claim C9: for every pair of entities with Position and Collider, the
overlap predicate is symmetric and is exactly the strict comparison
distance < radius sum, so a pair at distance exactly equal to the radius sum
is non-colliding. -/
theorem claim_C9 (pos1 pos2 : Pos) (r1 r2 : ℝ) :
    collides pos1 pos2 r1 r2 = collides pos2 pos1 r2 r1
    ∧ (collides pos1 pos2 r1 r2 = true ↔ distance pos1 pos2 < r1 + r2)
    ∧ (distance pos1 pos2 = r1 + r2 → collides pos1 pos2 r1 r2 = false) := by
  refine ⟨?_, ?_, ?_⟩
  · unfold collides distance
    have harg : (pos1.x - pos2.x) * (pos1.x - pos2.x) + (pos1.y - pos2.y) * (pos1.y - pos2.y)
        = (pos2.x - pos1.x) * (pos2.x - pos1.x) + (pos2.y - pos1.y) * (pos2.y - pos1.y) := by
      ring
    rw [harg, add_comm r2 r1]
  · unfold collides
    exact decide_eq_true_iff
  · intro h
    unfold collides
    rw [h]
    simp

/-- Witness for C9 at a concrete boundary input: centers 3 apart with radii
1 and 2 touch exactly and do not collide. -/
theorem claim_C9_witness :
    distance ⟨0, 0⟩ ⟨3, 0⟩ = 1 + 2 ∧ collides ⟨0, 0⟩ ⟨3, 0⟩ 1 2 = false := by
  have hd : distance (⟨0, 0⟩ : Pos) (⟨3, 0⟩ : Pos) = 1 + 2 := by
    unfold distance
    rw [show ((3:ℝ) - 0) * ((3:ℝ) - 0) + ((0:ℝ) - 0) * ((0:ℝ) - 0) = (3:ℝ) ^ 2 by norm_num]
    rw [Real.sqrt_sq (by norm_num : (0:ℝ) ≤ 3)]
    norm_num
  exact ⟨hd, (claim_C9 ⟨0, 0⟩ ⟨3, 0⟩ 1 2).2.2 hd⟩

/-- Claim C10: for every origin, count at least 1 and speed, the Pulse
generator produces exactly the list of projectile vectors of the Spiral
generator with rotation fixed at 0 and the same count and speed. -/
theorem claim_C10 (x y speed : ℝ) (count : ℕ) (hc : 1 ≤ count) :
    generate_pulse_pattern x y count speed = generate_spiral_pattern x y 0 count speed := by
  unfold generate_pulse_pattern generate_spiral_pattern
  apply List.ext_getElem
  · simp
  intro i h1 h2
  simp only [List.getElem_map, List.getElem_range]
  have hi : i < count := by simpa using h1
  have hcpos : (0:ℝ) < (count:ℝ) := by
    have : 0 < count := lt_of_lt_of_le Nat.zero_lt_one hc
    exact_mod_cast this
  have hilt : (i:ℝ) < (count:ℝ) := by exact_mod_cast hi
  have hnn : 0 ≤ (i:ℝ) * (360 / (count:ℝ)) := by positivity
  have hlt : (i:ℝ) * (360 / (count:ℝ)) < 360 := by
    have h1 : (i:ℝ) / (count:ℝ) < 1 := (div_lt_one hcpos).mpr hilt
    have h2 : (i:ℝ) * (360 / (count:ℝ)) = 360 * ((i:ℝ) / (count:ℝ)) := by ring
    rw [h2]
    nlinarith
  have ha : pyMod ((i:ℝ) * (360 / (count:ℝ)) + 0) 360 = (i:ℝ) * (360 / (count:ℝ)) := by
    rw [add_zero]
    unfold pyMod
    have hfloor : ⌊((i:ℝ) * (360 / (count:ℝ))) / 360⌋ = 0 := by
      rw [Int.floor_eq_zero_iff]
      constructor
      · positivity
      · rw [div_lt_one (by norm_num : (0:ℝ) < 360)] at *
        exact hlt
    rw [hfloor]
    push_cast
    ring
  rw [ha]

/-- Witness for C10 at the burst-pulse parameters: count 16, speed 4. -/
theorem claim_C10_witness :
    1 ≤ 16 ∧ generate_pulse_pattern 30 10 16 4 = generate_spiral_pattern 30 10 0 16 4 :=
  ⟨by decide, claim_C10 30 10 4 16 (by decide)⟩

theorem foldl_nearest_some (p : Pos) (l : List (ℤ × Pos)) :
    ∀ a : Pos × ℝ, ∃ b, l.foldl (nearest_step p) (some a) = some b := by
  induction l with
  | nil => intro a; exact ⟨a, rfl⟩
  | cons hd tl ih =>
    intro a
    rw [List.foldl_cons]
    unfold nearest_step
    dsimp only
    split_ifs with h
    · exact ih _
    · exact ih _

theorem nearest_enemy_of_ne_nil (p : Pos) (entries : List (ℤ × Pos))
    (h : entries ≠ []) : ∃ t, nearest_enemy p entries = some t := by
  match entries with
  | [] => exact absurd rfl h
  | hd :: tl =>
    unfold nearest_enemy
    rw [List.foldl_cons]
    obtain ⟨b, hb⟩ := foldl_nearest_some p tl
      (hd.2, Real.sqrt ((hd.2.x - p.x) * (hd.2.x - p.x) + (hd.2.y - p.y) * (hd.2.y - p.y)))
    rw [show nearest_step p none hd
        = some (hd.2, Real.sqrt ((hd.2.x - p.x) * (hd.2.x - p.x) + (hd.2.y - p.y) * (hd.2.y - p.y)))
      from rfl]
    rw [hb]
    exact ⟨b.1, rfl⟩

theorem clamp_abs_le {m d : ℝ} (hm : 0 ≤ m) :
    |max (-m) (min m d)| ≤ m ∧ |max (-m) (min m d)| ≤ |d| := by
  constructor
  · rw [abs_le]
    exact ⟨le_max_left _ _, max_le (by linarith) (min_le_left _ _)⟩
  · rw [abs_le]
    constructor
    · rcases le_or_lt 0 d with hd | hd
      · have h0 : 0 ≤ min m d := le_min hm hd
        have := le_max_right (-m) (min m d)
        have habs : -|d| ≤ 0 := neg_nonpos.mpr (abs_nonneg d)
        linarith
      · have hmin : min m d = d := min_eq_right (by linarith)
        rw [hmin, abs_of_neg hd]
        have := le_max_right (-m) d
        linarith
    · exact max_le (le_trans (neg_nonpos.mpr hm) (abs_nonneg d))
        (le_trans (min_le_right m d) (le_abs_self d))

/-- Claim C8: a homing tick on a player projectile with at least one enemy
rotates the velocity by a turn clamped to HOMING_TURN_RATE·dt (in radians,
radians HOMING_TURN_RATE * dt) and clamped to never overshoot the normalised
angle difference to the nearest enemy, while preserving the velocity's
magnitude exactly; with no enemies, or when no player holds the homing
effect, nothing is modified. -/
theorem claim_C8 (dt : ℝ) (w : World) (proj_pos : Pos) (vel : Vel)
    (entries : List (ℤ × Pos))
    (hdt : 0 ≤ dt) (hw : player_has_homing w = false) :
    homing_update_vel dt proj_pos vel [] = vel
    ∧ homing_process dt w = w
    ∧ (entries ≠ [] →
       ∃ target, nearest_enemy proj_pos entries = some target ∧
       ∃ turn : ℝ,
         |turn| ≤ radians Config.HOMING_TURN_RATE * dt
         ∧ |turn| ≤ |addLoop (subLoop (atan2 (target.y - proj_pos.y) (target.x - proj_pos.x)
             - atan2 vel.dy vel.dx))|
         ∧ homing_update_vel dt proj_pos vel entries
           = ⟨Real.cos (atan2 vel.dy vel.dx + turn)
                * Real.sqrt (vel.dx * vel.dx + vel.dy * vel.dy),
              Real.sin (atan2 vel.dy vel.dx + turn)
                * Real.sqrt (vel.dx * vel.dx + vel.dy * vel.dy)⟩
         ∧ Real.sqrt ((homing_update_vel dt proj_pos vel entries).dx
                * (homing_update_vel dt proj_pos vel entries).dx
              + (homing_update_vel dt proj_pos vel entries).dy
                * (homing_update_vel dt proj_pos vel entries).dy)
             = Real.sqrt (vel.dx * vel.dx + vel.dy * vel.dy)) := by
  refine ⟨rfl, ?_, ?_⟩
  · unfold homing_process
    rw [hw]
    simp
  · intro hne
    obtain ⟨target, ht⟩ := nearest_enemy_of_ne_nil proj_pos entries hne
    refine ⟨target, ht, ?_⟩
    have hm : 0 ≤ radians Config.HOMING_TURN_RATE * dt := by
      have : 0 ≤ radians Config.HOMING_TURN_RATE := by
        unfold radians Config.HOMING_TURN_RATE
        positivity
      exact mul_nonneg this hdt
    set m := radians Config.HOMING_TURN_RATE * dt with hmdef
    set ad := addLoop (subLoop (atan2 (target.y - proj_pos.y) (target.x - proj_pos.x)
      - atan2 vel.dy vel.dx)) with haddef
    refine ⟨max (-m) (min m ad), (clamp_abs_le hm).1, (clamp_abs_le hm).2, ?_, ?_⟩
    · unfold homing_update_vel
      rw [ht]
    · unfold homing_update_vel
      rw [ht]
      dsimp only
      set s := Real.sqrt (vel.dx * vel.dx + vel.dy * vel.dy) with hsdef
      set n := atan2 vel.dy vel.dx + max (-m) (min m ad) with hndef
      have h1 : (Real.cos n * s) * (Real.cos n * s) + (Real.sin n * s) * (Real.sin n * s)
          = s ^ 2 := by
        have hpy := Real.sin_sq_add_cos_sq n
        nlinarith [hpy]
      rw [h1, Real.sqrt_sq (Real.sqrt_nonneg _)]

/-- Witness for C8: dt = 1, an empty world (no player holds homing), and a
singleton enemy list. -/
theorem claim_C8_witness :
    player_has_homing ⟨[], [], 1⟩ = false
    ∧ homing_process 1 ⟨[], [], 1⟩ = ⟨[], [], 1⟩
    ∧ ([((5 : ℤ), (⟨3, 4⟩ : Pos))] ≠ ([] : List (ℤ × Pos))
        → ∃ target, nearest_enemy ⟨0, 0⟩ [((5 : ℤ), (⟨3, 4⟩ : Pos))] = some target ∧
          ∃ turn : ℝ,
            |turn| ≤ radians Config.HOMING_TURN_RATE * 1
            ∧ |turn| ≤ |addLoop (subLoop (atan2 (Pos.y target - 0) (Pos.x target - 0)
                - atan2 (1 : ℝ) 0))|
            ∧ homing_update_vel 1 ⟨0, 0⟩ ⟨0, 1⟩ [((5 : ℤ), (⟨3, 4⟩ : Pos))]
              = ⟨Real.cos (atan2 (1 : ℝ) 0 + turn) * Real.sqrt ((0 : ℝ) * 0 + 1 * 1),
                 Real.sin (atan2 (1 : ℝ) 0 + turn) * Real.sqrt ((0 : ℝ) * 0 + 1 * 1)⟩
            ∧ Real.sqrt ((homing_update_vel 1 ⟨0, 0⟩ ⟨0, 1⟩ [((5 : ℤ), (⟨3, 4⟩ : Pos))]).dx
                   * (homing_update_vel 1 ⟨0, 0⟩ ⟨0, 1⟩ [((5 : ℤ), (⟨3, 4⟩ : Pos))]).dx
                 + (homing_update_vel 1 ⟨0, 0⟩ ⟨0, 1⟩ [((5 : ℤ), (⟨3, 4⟩ : Pos))]).dy
                   * (homing_update_vel 1 ⟨0, 0⟩ ⟨0, 1⟩ [((5 : ℤ), (⟨3, 4⟩ : Pos))]).dy)
                = Real.sqrt ((0 : ℝ) * 0 + 1 * 1)) := by
  have h := claim_C8 1 ⟨[], [], 1⟩ ⟨0, 0⟩ ⟨0, 1⟩ [((5 : ℤ), (⟨3, 4⟩ : Pos))]
    zero_le_one rfl
  exact ⟨rfl, h.2.1, h.2.2⟩

/-- Claim C4: a boss entity created by create_boss never carries the Enemy
marker (nor Player, nor Projectile); consequently _handle_collision applies
no interaction to any pair involving such an entity, and the homing
resolver's enemy scan never lists it. -/
theorem claim_C4 (bp : Bool) (boss_type : String) (x y : ℝ) (e : Entity)
    (hcreate : create_boss boss_type x y = some e)
    (s : Sim) (b : ℤ)
    (hb : ∀ pr ∈ s.w.store, pr.1 = b →
      pr.2.enemy = none ∧ pr.2.player = false ∧ pr.2.projectile = none) :
    (e.enemy = none ∧ e.player = false ∧ e.projectile = none)
    ∧ (∀ a, handle_collision bp a b s = .ok s ∧ handle_collision bp b a s = .ok s)
    ∧ (∀ p, (b, p) ∉ enemy_pos_entries s.w) := by
  have hEnemy : hasc s.w b (fun e => e.enemy.isSome) = false := by
    unfold hasc World.get
    cases hlb : s.w.store.lookup b with
    | none => rfl
    | some eb =>
      have h := hb _ (lookup_mem hlb) rfl
      have h1 : eb.enemy = none := h.1
      simp [h1]
  have hPlayer : hasc s.w b (fun e => e.player) = false := by
    unfold hasc World.get
    cases hlb : s.w.store.lookup b with
    | none => rfl
    | some eb =>
      have h := hb _ (lookup_mem hlb) rfl
      have h1 : eb.player = false := h.2.1
      simp [h1]
  have hProj : hasc s.w b (fun e => e.projectile.isSome) = false := by
    unfold hasc World.get
    cases hlb : s.w.store.lookup b with
    | none => rfl
    | some eb =>
      have h := hb _ (lookup_mem hlb) rfl
      have h1 : eb.projectile = none := h.2.2
      simp [h1]
  refine ⟨?_, ?_, ?_⟩
  · unfold create_boss at hcreate
    split at hcreate
    · exact absurd hcreate (by simp)
    · split at hcreate
      · exact absurd hcreate (by simp)
      · simp only [Option.some.injEq] at hcreate
        subst hcreate
        exact ⟨rfl, rfl, rfl⟩
  · intro a
    have h1 : hc_proj_enemy bp a b s = .ok s := by
      unfold hc_proj_enemy
      simp [hEnemy, hProj]
    have h1' : hc_proj_enemy bp b a s = .ok s := by
      unfold hc_proj_enemy
      simp [hEnemy, hProj]
    have h2 : hc_proj_player a b s = .ok s := by
      unfold hc_proj_player
      simp [hPlayer, hProj]
    have h2' : hc_proj_player b a s = .ok s := by
      unfold hc_proj_player
      simp [hPlayer, hProj]
    have h3 : hc_contact a b s = .ok s := by
      unfold hc_contact
      simp [hEnemy, hPlayer]
    have h3' : hc_contact b a s = .ok s := by
      unfold hc_contact
      simp [hEnemy, hPlayer]
    constructor
    · unfold handle_collision
      rw [h1]
      dsimp only
      rw [h2]
      dsimp only
      exact h3
    · unfold handle_collision
      rw [h1']
      dsimp only
      rw [h2']
      dsimp only
      exact h3'
  · intro p hp
    unfold enemy_pos_entries at hp
    rw [List.mem_filterMap] at hp
    obtain ⟨pr, hmem, hpr⟩ := hp
    cases he : pr.2.enemy with
    | none => rw [he] at hpr; simp at hpr
    | some t =>
      cases hpo : pr.2.pos with
      | none => rw [he, hpo] at hpr; simp at hpr
      | some pos =>
        rw [he, hpo] at hpr
        simp only [Option.some.injEq, Prod.mk.injEq] at hpr
        have := (hb pr hmem hpr.1).1
        rw [he] at this
        exact Option.noConfusion this


/-- Witness for C4: boss_a created at (30, 10); a concrete player-boss pair
produces no interaction, and the boss is not an enemy-scan candidate. -/
theorem claim_C4_witness :
    (∃ e, create_boss "boss_a" 30 10 = some e ∧ e.enemy = none ∧ e.player = false
      ∧ e.projectile = none)
    ∧ handle_collision false 1 2 c4sim = .ok c4sim
    ∧ ∀ p, ((2 : ℤ), p) ∉ enemy_pos_entries c4sim.w := by
  have hb : ∀ pr ∈ c4sim.w.store, pr.1 = 2 →
      pr.2.enemy = none ∧ pr.2.player = false ∧ pr.2.projectile = none := by
    intro pr hpr
    simp only [c4sim, List.mem_cons, List.not_mem_nil, or_false] at hpr
    rcases hpr with rfl | rfl
    · intro h2
      exact absurd h2 (by decide)
    · intro _
      exact ⟨rfl, rfl, rfl⟩
  have h := claim_C4 false "boss_a" 30 10 ((create_boss "boss_a" 30 10).getD {}) rfl
    c4sim 2 hb
  exact ⟨⟨_, rfl, h.1⟩, (h.2.1 1).1, h.2.2⟩

/-- Claim C5: a player holding Invincible takes no damage from any source:
an enemy projectile hit only deletes the projectile, enemy contact is a
no-op, and blast damage skips the player, for any projectile damage value. -/
theorem claim_C5 (s : Sim) (player proj enemyId : ℤ) (pe : Entity)
    (hlook : s.w.get player = some pe) (hplayer : pe.player = true)
    (hinv : pe.invincible.isSome = true) :
    projectile_hit_player proj player s = .ok (s.del proj)
    ∧ enemy_contact_player enemyId player s = .ok s
    ∧ ∀ center radius,
        (damage_entities_in_radius s.w center radius).get player = some pe := by
  have hhc : hasc s.w player (fun e => e.invincible.isSome) = true := by
    unfold hasc
    rw [hlook]
    exact hinv
  refine ⟨?_, ?_, ?_⟩
  · unfold projectile_hit_player
    simp [hhc]
  · unfold enemy_contact_player
    simp [hhc]
  · intro center radius
    have hlook' : s.w.store.lookup player = some pe := hlook
    have hupd : blast_update center radius pe = pe := by
      unfold blast_update
      cases hpo : pe.pos with
      | none => rfl
      | some pos =>
        cases hh : pe.health with
        | none => rfl
        | some h =>
          have hpi : (pe.player && pe.invincible.isSome) = true := by
            rw [hplayer]
            simpa using hinv
          simp only [hpi]
          split_ifs <;> rfl
    unfold damage_entities_in_radius World.get
    simp only
    rw [lookup_map_key_preserving
      (fun p => ((p.1, blast_update center radius p.2) : ℤ × Entity)) (fun p => rfl)]
    rw [hlook']
    simp [hupd]


/-- Witness for C5 at a concrete state: the invincible player at id 1. -/
theorem claim_C5_witness :
    projectile_hit_player 2 1 c5sim = .ok (c5sim.del 2)
    ∧ enemy_contact_player 3 1 c5sim = .ok c5sim
    ∧ (damage_entities_in_radius c5sim.w ⟨0, 0⟩ 2).get 1 = some c5player := by
  have h := claim_C5 c5sim 1 2 3 c5player rfl rfl rfl
  exact ⟨h.1, h.2.1, h.2.2 ⟨0, 0⟩ 2⟩

theorem process_pairs_nil {bp : Bool} {s : Sim} : process_pairs bp [] s = .ok s := rfl

theorem process_pairs_cons_false {bp : Bool} {p : ℤ × ℤ} {rest : List (ℤ × ℤ)} {s : Sim}
    (h : check_collision p.1 p.2 s = .ok false) :
    process_pairs bp (p :: rest) s = process_pairs bp rest s := by
  conv_lhs => unfold process_pairs
  rw [h]
  rfl

theorem process_pairs_cons_err {bp : Bool} {p : ℤ × ℤ} {rest : List (ℤ × ℤ)} {s : Sim}
    {err : PyErr × Sim}
    (h : check_collision p.1 p.2 s = .ok true)
    (h2 : handle_collision bp p.1 p.2 s = .error err) :
    process_pairs bp (p :: rest) s = .error err := by
  conv_lhs => unfold process_pairs
  rw [h]
  dsimp only
  rw [h2]
  rfl

theorem process_pairs_cons_ok {bp : Bool} {p : ℤ × ℤ} {rest : List (ℤ × ℤ)} {s s' : Sim}
    (h : check_collision p.1 p.2 s = .ok true)
    (h2 : handle_collision bp p.1 p.2 s = .ok s') :
    process_pairs bp (p :: rest) s = process_pairs bp rest s' := by
  conv_lhs => unfold process_pairs
  rw [h]
  dsimp only
  rw [h2]
  rfl


theorem sqrt_thousand_ge_one : (1 : ℝ) ≤ Real.sqrt 1000 := by
  have h := Real.sqrt_le_sqrt (by norm_num : (1 : ℝ) ≤ 1000)
  rwa [Real.sqrt_one] at h

/-- Claim C2 (code bug): with the "explosive" effect and a wired bomb system,
a projectile-enemy hit raises TypeError (collision.py line 151 passes three
arguments to the two-parameter damage_entities_in_radius of bomb.py line 85):
the frame aborts after the direct damage; no blast damage is applied and the
projectile is not deleted. -/
theorem claim_C2 :
    collision_process true c2sim = .error (.typeErr, c2s1)
    ∧ c2s1.w.get 3 = some c2proj
    ∧ c2s1.w.dead = []
    ∧ c2s1.w.get 2 = some { c2enemy with health := some ⟨2, 3⟩ } := by
  have hc12 : collides ⟨0, 0⟩ ⟨30, 10⟩ 0.3 0.5 = false := by
    unfold collides distance
    apply decide_eq_false
    rw [not_lt]
    dsimp only
    rw [show ((30:ℝ) - 0) * ((30:ℝ) - 0) + ((10:ℝ) - 0) * ((10:ℝ) - 0) = 1000 by norm_num]
    linarith [sqrt_thousand_ge_one]
  have hc13 : collides ⟨0, 0⟩ ⟨30, 10⟩ 0.3 0.2 = false := by
    unfold collides distance
    apply decide_eq_false
    rw [not_lt]
    dsimp only
    rw [show ((30:ℝ) - 0) * ((30:ℝ) - 0) + ((10:ℝ) - 0) * ((10:ℝ) - 0) = 1000 by norm_num]
    linarith [sqrt_thousand_ge_one]
  have hc23 : collides ⟨30, 10⟩ ⟨30, 10⟩ 0.5 0.2 = true := by
    unfold collides distance
    apply decide_eq_true
    dsimp only
    rw [show ((30:ℝ) - 30) * ((30:ℝ) - 30) + ((10:ℝ) - 10) * ((10:ℝ) - 10) = 0 by norm_num]
    rw [Real.sqrt_zero]
    norm_num
  have hchk12 : check_collision 1 2 c2sim = .ok false := by
    have h : check_collision 1 2 c2sim = .ok (collides ⟨0, 0⟩ ⟨30, 10⟩ 0.3 0.5) := rfl
    rw [h, hc12]
  have hchk13 : check_collision 1 3 c2sim = .ok false := by
    have h : check_collision 1 3 c2sim = .ok (collides ⟨0, 0⟩ ⟨30, 10⟩ 0.3 0.2) := rfl
    rw [h, hc13]
  have hchk23 : check_collision 2 3 c2sim = .ok true := by
    have h : check_collision 2 3 c2sim = .ok (collides ⟨30, 10⟩ ⟨30, 10⟩ 0.5 0.2) := rfl
    rw [h, hc23]
  have hhandle : handle_collision true 2 3 c2sim = .error (.typeErr, c2s1) := rfl
  refine ⟨?_, ?_, rfl, ?_⟩
  · show process_pairs true
      [((1:ℤ), (2:ℤ)), ((1:ℤ), (3:ℤ)), ((2:ℤ), (3:ℤ))] c2sim = .error (.typeErr, c2s1)
    rw [process_pairs_cons_false hchk12, process_pairs_cons_false hchk13]
    exact process_pairs_cons_err hchk23 hhandle
  · show (c2sim.w.modifyEnt 2 _).get 3 = some c2proj
    rw [get_modifyEnt_ne _ (by decide : (3:ℤ) ≠ 2)]
    rfl
  · show (c2sim.w.modifyEnt 2 _).get 2 = some { c2enemy with health := some ⟨2, 3⟩ }
    rw [get_modifyEnt_eq _ (rfl : c2sim.w.get 2 = some c2enemy)]
    rw [show (3:ℝ) - 1 = 2 by norm_num]

theorem collides_same_pos (p : Pos) {r1 r2 : ℝ} (h : 0 < r1 + r2) :
    collides p p r1 r2 = true := by
  unfold collides distance
  apply decide_eq_true
  rw [show (p.x - p.x) * (p.x - p.x) + (p.y - p.y) * (p.y - p.y) = 0 by ring,
    Real.sqrt_zero]
  exact h

/-- Claim C1 (code bug): boss-pattern projectiles are created with
owner = -1, an id that never exists, so the projectile-player rule's
eligibility test (owner exists and carries Enemy) always fails for them:
overlapping a non-invincible player changes nothing (scenario A, the full
pass is the identity).  Instead, such projectiles satisfy the owner-absent
eligibility of the projectile-enemy rule and damage enemies, being deleted
in the process (scenario B). -/
theorem claim_C1 :
    collision_process false c1simA = .ok c1simA
    ∧ collision_process false c1simB = .ok c1simB'
    ∧ c1simB'.w.get 1 = some { c1enemy with health := some ⟨2, 3⟩ }
    ∧ c1simB'.w.entity_exists 2 = false := by
  have hcolA : collides ⟨10, 10⟩ ⟨10, 10⟩ 0.3 0.2 = true := collides_same_pos _ (by norm_num)
  have hchkA : check_collision 1 2 c1simA = .ok true := by
    have h : check_collision 1 2 c1simA = .ok (collides ⟨10, 10⟩ ⟨10, 10⟩ 0.3 0.2) := rfl
    rw [h, hcolA]
  have hhandA : handle_collision false 1 2 c1simA = .ok c1simA := rfl
  have hcolB : collides ⟨10, 10⟩ ⟨10, 10⟩ 0.5 0.2 = true := collides_same_pos _ (by norm_num)
  have hchkB : check_collision 1 2 c1simB = .ok true := by
    have h : check_collision 1 2 c1simB = .ok (collides ⟨10, 10⟩ ⟨10, 10⟩ 0.5 0.2) := rfl
    rw [h, hcolB]
  have hphe : projectile_hit_enemy false 2 1 c1simB = .ok c1simB' :=
    phe_survive false (rfl : get_comp c1simB 2 (fun e => e.projectile) = .ok ⟨1, -1⟩)
      (rfl : get_comp c1simB 1 (fun e => e.health) = .ok ⟨3, 3⟩) rfl rfl (by norm_num)
  have hhandB : handle_collision false 1 2 c1simB = .ok c1simB' := by
    have hstep : handle_collision false 1 2 c1simB
        = (match projectile_hit_enemy false 2 1 c1simB with
           | .error err => .error err
           | .ok s1 =>
             match hc_proj_player 1 2 s1 with
             | .error err => .error err
             | .ok s2 => hc_contact 1 2 s2) := rfl
    rw [hstep, hphe]
    rfl
  refine ⟨?_, ?_, ?_, rfl⟩
  · show process_pairs false [((1:ℤ), (2:ℤ))] c1simA = .ok c1simA
    rw [process_pairs_cons_ok hchkA hhandA]
    exact process_pairs_nil
  · show process_pairs false [((1:ℤ), (2:ℤ))] c1simB = .ok c1simB'
    rw [process_pairs_cons_ok hchkB hhandB]
    exact process_pairs_nil
  · show ((c1simB.w.modifyEnt 1 _).delete 2).get 1
      = some { c1enemy with health := some ⟨2, 3⟩ }
    rw [get_delete, get_modifyEnt_eq _ (rfl : c1simB.w.get 1 = some c1enemy)]
    rw [show (3:ℝ) - 1 = 2 by norm_num]

/-- Claim C6 (corrected): on the projectile-hit path the claim holds — a hit
that takes the enemy's health to 0 or below makes the enemy stop existing,
after an item-drop roll against ITEM_DROP_CHANCE (spawning a random item at
the enemy's last position) and an independent coin-drop roll against
ENEMY_COIN_DROP_CHANCE (spawning 1 + k % 2, i.e. 1-2, coins there), where
both, either or neither may fire.  The correction: blast (bomb) damage, which
the claim's sources also cover, only lowers health — it never deletes the
enemy and never rolls loot, so a blast-killed enemy still exists after
resolution (see the counterexample). -/
theorem claim_C6 {bp : Bool} {x y : ℤ} {s : Sim} {proj : ProjectileC} {h : HealthC}
    {ey : Entity} {pos : Pos} (piercing : Bool)
    (hp : get_comp s x (fun e => e.projectile) = .ok proj)
    (hh : get_comp s y (fun e => e.health) = .ok h)
    (hgy : s.w.get y = some ey)
    (hey : ey.pos = some pos)
    (hxy : x ≠ y)
    (hexp : owner_player_effect s.w proj.owner "explosive" = false)
    (hpier : owner_player_effect s.w proj.owner "piercing" = piercing)
    (hdead : h.current - proj.damage ≤ 0) :
    (∃ s', projectile_hit_enemy bp x y s = .ok s'
      ∧ s'.w.entity_exists y = false
      ∧ y ∈ s'.w.dead
      ∧ item_positions s'.w = item_positions s.w
          ++ (if s.rngF s.fIdx < Config.ITEM_DROP_CHANCE then [pos] else [])
      ∧ coin_positions s'.w = coin_positions s.w
          ++ (if s.rngF (s.fIdx + 1) < Config.ENEMY_COIN_DROP_CHANCE then
                List.replicate
                  (1 + (s.rngN (if s.rngF s.fIdx < Config.ITEM_DROP_CHANCE
                    then s.nIdx + 1 else s.nIdx)) % 2) pos
              else []))
    ∧ (∀ (w : World) (center : Pos) (radius : ℝ) (id : ℤ),
        (damage_entities_in_radius w center radius).entity_exists id
          = w.entity_exists id) := by
  refine ⟨?_, blast_keeps_entities⟩
  obtain ⟨s', h1, h2, h3, h4, h5, _⟩ :=
    phe_death piercing hp hh hgy hey hxy hexp hpier hdead
  exact ⟨s', h1, h2, h3, h4, h5⟩

/-- Witness for C6: the lethal projectile hit on the 1-health enemy of
c6sim. -/
theorem claim_C6_witness :
    (∃ s', projectile_hit_enemy false 2 1 c6sim = .ok s'
      ∧ s'.w.entity_exists 1 = false
      ∧ (1 : ℤ) ∈ s'.w.dead
      ∧ item_positions s'.w = item_positions c6sim.w
          ++ (if c6sim.rngF c6sim.fIdx < Config.ITEM_DROP_CHANCE then [⟨5, 5⟩] else [])
      ∧ coin_positions s'.w = coin_positions c6sim.w
          ++ (if c6sim.rngF (c6sim.fIdx + 1) < Config.ENEMY_COIN_DROP_CHANCE then
                List.replicate
                  (1 + (c6sim.rngN (if c6sim.rngF c6sim.fIdx < Config.ITEM_DROP_CHANCE
                    then c6sim.nIdx + 1 else c6sim.nIdx)) % 2) (⟨5, 5⟩ : Pos)
              else []))
    ∧ (∀ (w : World) (center : Pos) (radius : ℝ) (id : ℤ),
        (damage_entities_in_radius w center radius).entity_exists id
          = w.entity_exists id) :=
  claim_C6 false rfl rfl rfl rfl (by decide) rfl rfl (by norm_num)

/-- Counterexample for C6 as frozen: an enemy whose health becomes 0 through
blast damage (src/systems/bomb.py, named by the claim's sources) still exists
after the blast and after a full collision-resolution pass, and no loot roll
has happened. -/
theorem claim_C6_counterexample :
    (∃ e hc, c6blastW.get 1 = some e ∧ e.health = some hc ∧ hc.current ≤ 0)
    ∧ c6blastW.entity_exists 1 = true
    ∧ collision_process false c6blastSim = .ok c6blastSim
    ∧ item_positions c6blastW = []
    ∧ coin_positions c6blastW = [] := by
  refine ⟨?_, ?_, ?_, ?_, ?_⟩
  · rw [c6_blast_eval]
    exact ⟨_, _, rfl, rfl, by
      show (1:ℝ) - Config.BOMB_DAMAGE ≤ 0
      norm_num [Config.BOMB_DAMAGE]⟩
  · rw [c6_blast_eval]
    rfl
  · have hsim : c6blastSim
        = { w := { store := [(1, { c6enemy with
                     health := some ⟨1 - Config.BOMB_DAMAGE, 1⟩ })],
                   dead := [], nextId := 2 },
            rngF := fun _ => 1, rngN := fun _ => 0 } := by
      unfold c6blastSim
      rw [c6_blast_eval]
    rw [hsim]
    rfl
  · rw [c6_blast_eval]
    rfl
  · rw [c6_blast_eval]
    rfl

/-- Claim C7 (confirmed): a projectile whose owner has "piercing" and not
"explosive" survives enemy hits.  First conjunct: on a non-lethal hit the
handler leaves the projectile's record and the dead set unchanged while the
enemy's health drops by the projectile's damage.  Second conjunct: on a
lethal hit the enemy stops existing but the projectile's store entry and
existence are preserved.  Third conjunct: in a concrete full resolution pass
the piercing projectile overlaps two enemies, damages both, and still exists
afterwards with an unchanged record. -/
theorem claim_C7 :
    (∀ (bp : Bool) (x y : ℤ) (s : Sim) (proj : ProjectileC) (h : HealthC) (ey : Entity),
      get_comp s x (fun e => e.projectile) = .ok proj →
      get_comp s y (fun e => e.health) = .ok h →
      s.w.get y = some ey →
      x ≠ y →
      owner_player_effect s.w proj.owner "explosive" = false →
      owner_player_effect s.w proj.owner "piercing" = true →
      ¬ (h.current - proj.damage ≤ 0) →
      ∃ s', projectile_hit_enemy bp x y s = .ok s'
        ∧ s'.w.get x = s.w.get x
        ∧ s'.w.dead = s.w.dead
        ∧ s'.w.get y
            = some { ey with health := some { h with current := h.current - proj.damage } })
    ∧ (∀ (bp : Bool) (x y : ℤ) (s : Sim) (proj : ProjectileC) (h : HealthC)
        (ey : Entity) (pos : Pos),
      get_comp s x (fun e => e.projectile) = .ok proj →
      get_comp s y (fun e => e.health) = .ok h →
      s.w.get y = some ey →
      ey.pos = some pos →
      x ≠ y →
      owner_player_effect s.w proj.owner "explosive" = false →
      owner_player_effect s.w proj.owner "piercing" = true →
      h.current - proj.damage ≤ 0 →
      ∃ s', projectile_hit_enemy bp x y s = .ok s'
        ∧ s'.w.entity_exists y = false
        ∧ (∀ ex, s.w.get x = some ex → s'.w.get x = some ex)
        ∧ (x ∈ s'.w.dead ↔ x ∈ s.w.dead)
        ∧ (s.w.entity_exists x = true → s'.w.entity_exists x = true))
    ∧ (collision_process false c7sim = .ok c7s2
      ∧ c7s2.w.entity_exists 2 = true
      ∧ c7s2.w.get 2 = c7sim.w.get 2
      ∧ c7s2.w.get 3 = some { c7enemy with health := some ⟨2, 3⟩ }
      ∧ c7s2.w.get 4 = some { c7enemy with health := some ⟨2, 3⟩ }) := by
  refine ⟨?_, ?_, ?_⟩
  · intro bp x y s proj h ey hp hh hgy hxy hexp hpier halive
    exact ⟨s.modify y (fun e =>
        { e with health := some { h with current := h.current - proj.damage } }),
      phe_survive true hp hh hexp hpier halive,
      get_modifyEnt_ne _ hxy, rfl, get_modifyEnt_eq _ hgy⟩
  · intro bp x y s proj h ey pos hp hh hgy hey hxy hexp hpier hlethal
    obtain ⟨s', h1, h2, _, _, _, hframe⟩ :=
      phe_death true hp hh hgy hey hxy hexp hpier hlethal
    obtain ⟨hg, hd⟩ := hframe rfl
    exact ⟨s', h1, h2, hg, hd, entity_exists_of_keep hg hd⟩
  · have hcolFar : ∀ r2 : ℝ, r2 ≤ 0.7 → collides ⟨35, 15⟩ ⟨5, 5⟩ 0.3 r2 = false := by
      intro r2 hr2
      unfold collides distance
      apply decide_eq_false
      rw [not_lt]
      dsimp only
      rw [show ((5:ℝ) - 35) * ((5:ℝ) - 35) + ((5:ℝ) - 15) * ((5:ℝ) - 15) = 1000 by norm_num]
      linarith [sqrt_thousand_ge_one]
    have hchk12 : check_collision 1 2 c7sim = .ok false := by
      have he : check_collision 1 2 c7sim = .ok (collides ⟨35, 15⟩ ⟨5, 5⟩ 0.3 0.2) := rfl
      rw [he, hcolFar 0.2 (by norm_num)]
    have hchk13 : check_collision 1 3 c7sim = .ok false := by
      have he : check_collision 1 3 c7sim = .ok (collides ⟨35, 15⟩ ⟨5, 5⟩ 0.3 0.5) := rfl
      rw [he, hcolFar 0.5 (by norm_num)]
    have hchk14 : check_collision 1 4 c7sim = .ok false := by
      have he : check_collision 1 4 c7sim = .ok (collides ⟨35, 15⟩ ⟨5, 5⟩ 0.3 0.5) := rfl
      rw [he, hcolFar 0.5 (by norm_num)]
    have hchk23 : check_collision 2 3 c7sim = .ok true := by
      have he : check_collision 2 3 c7sim = .ok (collides ⟨5, 5⟩ ⟨5, 5⟩ 0.2 0.5) := rfl
      rw [he, collides_same_pos _ (by norm_num)]
    have hphe23 : projectile_hit_enemy false 2 3 c7sim = .ok c7s1 :=
      phe_survive true (rfl : get_comp c7sim 2 (fun e => e.projectile) = .ok ⟨1, 1⟩)
        (rfl : get_comp c7sim 3 (fun e => e.health) = .ok ⟨3, 3⟩) rfl rfl (by norm_num)
    have hhand23 : handle_collision false 2 3 c7sim = .ok c7s1 := by
      have hstep : handle_collision false 2 3 c7sim
          = (match projectile_hit_enemy false 2 3 c7sim with
             | .error err => .error err
             | .ok s1 =>
               match hc_proj_player 2 3 s1 with
               | .error err => .error err
               | .ok s2 => hc_contact 2 3 s2) := rfl
      rw [hstep, hphe23]
      rfl
    have hchk24 : check_collision 2 4 c7s1 = .ok true := by
      have he : check_collision 2 4 c7s1 = .ok (collides ⟨5, 5⟩ ⟨5, 5⟩ 0.2 0.5) := rfl
      rw [he, collides_same_pos _ (by norm_num)]
    have hphe24 : projectile_hit_enemy false 2 4 c7s1 = .ok c7s2 :=
      phe_survive true (rfl : get_comp c7s1 2 (fun e => e.projectile) = .ok ⟨1, 1⟩)
        (rfl : get_comp c7s1 4 (fun e => e.health) = .ok ⟨3, 3⟩) rfl rfl (by norm_num)
    have hhand24 : handle_collision false 2 4 c7s1 = .ok c7s2 := by
      have hstep : handle_collision false 2 4 c7s1
          = (match projectile_hit_enemy false 2 4 c7s1 with
             | .error err => .error err
             | .ok s1 =>
               match hc_proj_player 2 4 s1 with
               | .error err => .error err
               | .ok s2 => hc_contact 2 4 s2) := rfl
      rw [hstep, hphe24]
      rfl
    have hchk34 : check_collision 3 4 c7s2 = .ok true := by
      have he : check_collision 3 4 c7s2 = .ok (collides ⟨5, 5⟩ ⟨5, 5⟩ 0.5 0.5) := rfl
      rw [he, collides_same_pos _ (by norm_num)]
    have hhand34 : handle_collision false 3 4 c7s2 = .ok c7s2 := rfl
    refine ⟨?_, rfl, rfl, ?_, ?_⟩
    · show process_pairs false
        [((1:ℤ), (2:ℤ)), ((1:ℤ), (3:ℤ)), ((1:ℤ), (4:ℤ)),
         ((2:ℤ), (3:ℤ)), ((2:ℤ), (4:ℤ)), ((3:ℤ), (4:ℤ))] c7sim = .ok c7s2
      rw [process_pairs_cons_false hchk12, process_pairs_cons_false hchk13,
        process_pairs_cons_false hchk14, process_pairs_cons_ok hchk23 hhand23,
        process_pairs_cons_ok hchk24 hhand24, process_pairs_cons_ok hchk34 hhand34]
      exact process_pairs_nil
    · show ((c7sim.w.modifyEnt 3
          (fun e => { e with health := some { current := 3 - 1, max := 3 } })).modifyEnt 4
          (fun e => { e with health := some { current := 3 - 1, max := 3 } })).get 3
        = some { c7enemy with health := some ⟨2, 3⟩ }
      rw [get_modifyEnt_ne _ (by decide : (3:ℤ) ≠ 4),
        get_modifyEnt_eq _ (rfl : c7sim.w.get 3 = some c7enemy)]
      rw [show (3:ℝ) - 1 = 2 by norm_num]
    · show ((c7sim.w.modifyEnt 3
          (fun e => { e with health := some { current := 3 - 1, max := 3 } })).modifyEnt 4
          (fun e => { e with health := some { current := 3 - 1, max := 3 } })).get 4
        = some { c7enemy with health := some ⟨2, 3⟩ }
      have h4 : (c7sim.w.modifyEnt 3
          (fun e => { e with health := some { current := 3 - 1, max := 3 } })).get 4
          = some c7enemy := by
        rw [get_modifyEnt_ne _ (by decide : (4:ℤ) ≠ 3)]
        rfl
      rw [get_modifyEnt_eq _ h4]
      rw [show (3:ℝ) - 1 = 2 by norm_num]

/-- Claim C3 (confirmed): one Boss-AI tick on a boss with
has_transitioned = false and current / max ≤ phase_2_threshold (the ≤ makes
the exactly-at-threshold case transition) leaves the boss with
current_phase = 2, has_transitioned = true, pattern_name switched to the
head of the boss type's phase-2 pattern list, teleport_cooldown set to the
phase-2 value, and an Invincible component of
Config.BOSS_PHASE_TRANSITION_INVULN attached — for any dt and any player
position. -/
theorem claim_C3 (dt : ℝ) (player_pos : Option Pos) (b : ℤ) (s : Sim)
    (e : Entity) (boss : BossC) (h : HealthC) (a : BossAIC) (bpos : Pos)
    (data : BossData) (p : String) (ps : List String)
    (hget : s.w.get b = some e)
    (hb : e.boss = some boss)
    (htr : boss.has_transitioned = false)
    (hh : e.health = some h)
    (hmax : ¬ h.max = 0)
    (hthr : h.current / h.max ≤ boss.phase_2_threshold)
    (ha : e.bossAI = some a)
    (hp : e.pos = some bpos)
    (hdata : BOSS_DATA boss.boss_type = some data)
    (hpat : data.phase_2_patterns = p :: ps) :
    ∃ s' e', boss_ai_tick dt player_pos b s = .ok s'
      ∧ s'.w.get b = some e'
      ∧ e'.boss = some { boss with current_phase := 2, has_transitioned := true }
      ∧ e'.invincible = some Config.BOSS_PHASE_TRANSITION_INVULN
      ∧ ∃ a', e'.bossAI = some a'
          ∧ a'.pattern_name = p
          ∧ a'.teleport_cooldown = data.teleport_cooldown_phase_2 := by
  have hgcB : get_comp s b (fun e => e.boss) = .ok boss := by
    unfold get_comp
    rw [hget]
    dsimp only
    rw [hb]
  have hgcH : get_comp s b (fun e => e.health) = .ok h := by
    unfold get_comp
    rw [hget]
    dsimp only
    rw [hh]
  have hgcA : get_comp s b (fun e => e.bossAI) = .ok a := by
    unfold get_comp
    rw [hget]
    dsimp only
    rw [ha]
  have hcp : check_phase_transition b s = .ok
      (((s.modify b (fun rec =>
          { rec with boss := some { boss with current_phase := 2, has_transitioned := true } })).modify b
        (fun rec =>
          { rec with bossAI := some { a with pattern_name := p, teleport_cooldown := data.teleport_cooldown_phase_2 } })).modify b
        (fun rec =>
          { rec with invincible := some Config.BOSS_PHASE_TRANSITION_INVULN })) := by
    unfold check_phase_transition
    rw [hgcB]
    dsimp only
    rw [hgcH]
    dsimp only
    rw [hgcA]
    dsimp only
    rw [if_bool_false htr, if_neg hmax, if_pos hthr, hdata]
    dsimp only
    rw [hpat]
  have hgT : (((s.modify b (fun rec =>
        { rec with boss := some { boss with current_phase := 2, has_transitioned := true } })).modify b
      (fun rec =>
        { rec with bossAI := some { a with pattern_name := p, teleport_cooldown := data.teleport_cooldown_phase_2 } })).modify b
      (fun rec =>
        { rec with invincible := some Config.BOSS_PHASE_TRANSITION_INVULN })).w.get b
      = some { e with
          boss := some { boss with current_phase := 2, has_transitioned := true },
          bossAI := some { a with pattern_name := p, teleport_cooldown := data.teleport_cooldown_phase_2 },
          invincible := some Config.BOSS_PHASE_TRANSITION_INVULN } := by
    have h1 := get_modifyEnt_eq (fun rec =>
      { rec with boss := some { boss with current_phase := 2, has_transitioned := true } }) hget
    have h2 := get_modifyEnt_eq (fun rec =>
      { rec with bossAI := some { a with pattern_name := p, teleport_cooldown := data.teleport_cooldown_phase_2 } }) h1
    have h3 := get_modifyEnt_eq (fun rec =>
      { rec with invincible := some Config.BOSS_PHASE_TRANSITION_INVULN }) h2
    exact h3
  obtain ⟨s2, a2, hup, hget2, hname2, htc2⟩ :=
    update_pattern_spec dt b _ _ _ _ bpos hgT rfl rfl hp
  obtain ⟨s3, e3, hut, hget3, hb3, hi3, a3, ha3, hname3, htc3⟩ :=
    update_teleport_spec dt b player_pos s2 _ a2 hget2 rfl
  refine ⟨s3, e3, ?_, hget3, ?_, ?_, a3, ha3, ?_, ?_⟩
  · unfold boss_ai_tick
    rw [hcp]
    dsimp only
    rw [hup]
    dsimp only
    exact hut
  · rw [hb3]
  · rw [hi3]
  · rw [hname3, hname2]
  · rw [htc3, htc2]

/-- Witness for C3: boss_c at exactly half health (50 of 100) transitions on
one tick — phase 2, transitioned, pattern "burst_pulse", teleport cooldown 3,
Invincible attached. -/
theorem claim_C3_witness :
    ∃ s' e', boss_ai_tick 1 none 1 c3sim = .ok s'
      ∧ s'.w.get 1 = some e'
      ∧ e'.boss = some { boss_type := "boss_c", current_phase := 2,
                         phase_2_threshold := 0.5, has_transitioned := true }
      ∧ e'.invincible = some Config.BOSS_PHASE_TRANSITION_INVULN
      ∧ ∃ a', e'.bossAI = some a'
          ∧ a'.pattern_name = "burst_pulse"
          ∧ a'.teleport_cooldown = 3 :=
  claim_C3 1 none 1 c3sim c3boss { boss_type := "boss_c" } ⟨50, 100⟩
    { pattern_name := "pulse", pattern_cooldown := 3 } ⟨30, 10⟩
    ⟨"The Spiral King", 100, ⟨"K", "bright_red"⟩, ["pulse", "spiral"],
      ["burst_pulse", "double_spiral"], 6, 3⟩
    "burst_pulse" ["double_spiral"]
    rfl rfl rfl rfl
    (by show ¬ (100 : ℝ) = 0; norm_num)
    (by show (50 : ℝ) / 100 ≤ 0.5; norm_num)
    rfl rfl rfl rfl

end TOI
